import Mathlib

/-!
Verification development for the spatial transform and snapping engine of the
`react-svg-canvas` repository.  The TypeScript sources are shallowly embedded
over ℚ (JavaScript numbers are modelled as exact rationals; the transcendental
functions `Math.cos`/`Math.sin` are abstracted by an explicit trigonometric
table parameter, so every theorem quantifying over the table in particular
holds for the real cosine/sine values).
-/

namespace SvgCanvas

/-- `src/types.ts`: `Point { x, y }`. -/
structure Point where
  x : ℚ
  y : ℚ
deriving DecidableEq, Repr

/-- `src/types.ts`: `Bounds { x, y, width, height }`. -/
structure Bounds where
  x : ℚ
  y : ℚ
  width : ℚ
  height : ℚ
deriving DecidableEq, Repr

/-- A trigonometric table: an angle in degrees is mapped to the pair
`(cos θ°, sin θ°)`.  The TypeScript code calls `Math.cos`/`Math.sin` on the
angle converted to radians; the embedding abstracts those calls so that the
development stays computable.  Theorems quantify over the table, hence they
instantiate to the genuine cosine/sine. -/
abbrev Trig := ℚ → ℚ × ℚ

/-- A table that is exact at angle `0` (cos 0° = 1, sin 0° = 0); used for the
concrete evaluations, all of which rotate by 0 degrees. -/
def trigZero : Trig := fun _ => (1, 0)

/-- `src/geometry/math.ts`: `RotationMatrix`.  The `radians` field of the
source (only ever used to build `cos`/`sin`) is transcendental and omitted;
the consumers read only `cos` and `sin`. -/
structure RotationMatrix where
  degrees : ℚ
  cos : ℚ
  sin : ℚ
deriving DecidableEq, Repr

/-- `src/geometry/math.ts`: `createRotationMatrix`. -/
def createRotationMatrix (T : Trig) (degrees : ℚ) : RotationMatrix :=
  { degrees := degrees, cos := (T degrees).1, sin := (T degrees).2 }

/-- `src/geometry/math.ts`: `rotateDeltaWithMatrix`. -/
def rotateDeltaWithMatrix (dx dy : ℚ) (matrix : RotationMatrix) : ℚ × ℚ :=
  (dx * matrix.cos - dy * matrix.sin, dx * matrix.sin + dy * matrix.cos)

/-- `src/geometry/math.ts`: `unrotateDeltaWithMatrix`. -/
def unrotateDeltaWithMatrix (dx dy : ℚ) (matrix : RotationMatrix) : ℚ × ℚ :=
  (dx * matrix.cos + dy * matrix.sin, -dx * matrix.sin + dy * matrix.cos)

/-- `src/rotation/rotation-utils.ts`: `getPivotPosition`. -/
def getPivotPosition (bounds : Bounds) (pivotX pivotY : ℚ) : Point :=
  { x := bounds.x + bounds.width * pivotX
    y := bounds.y + bounds.height * pivotY }

/-- `src/rotation/rotation-utils.ts`: `rotatePointAroundCenter`. -/
def rotatePointAroundCenter (T : Trig) (point center : Point)
    (angleDegrees : ℚ) : Point :=
  let c := (T angleDegrees).1
  let s := (T angleDegrees).2
  let dx := point.x - center.x
  let dy := point.y - center.y
  { x := center.x + dx * c - dy * s
    y := center.y + dx * s + dy * c }

/-- `src/rotation/rotation-utils.ts`: `calculatePivotCompensation`.
The zero branch mirrors `rotation === 0 || Math.abs(rotation) < 0.001`. -/
def calculatePivotCompensation (T : Trig) (oldPivot newPivot : Point)
    (bounds : Bounds) (rotation : ℚ) : Point :=
  let dpx := oldPivot.x - newPivot.x
  let dpy := oldPivot.y - newPivot.y
  if rotation = 0 ∨ |rotation| < 1 / 1000 then
    { x := bounds.width * dpx, y := bounds.height * dpy }
  else
    let c := (T rotation).1
    let s := (T rotation).2
    { x := bounds.width * dpx * (1 - c) + bounds.height * dpy * s
      y := bounds.height * dpy * (1 - c) - bounds.width * dpx * s }

/-- Modelled from the spec (claim C1's closed form): the compensation a pivot
change must produce so the rendered rectangle is unchanged, namely
`(I - R(θ))` applied to `v = (w·Δx, h·Δy)`, expanded with `cos θ = c`,
`sin θ = s`. -/
def specPivotCompensation (c s : ℚ) (v : Point) : Point :=
  { x := v.x * (1 - c) + v.y * s
    y := v.y * (1 - c) - v.x * s }

/-- Rendering convention of `SelectionBox.tsx` (`rotate(rotation cx cy)` with
`cx,cy = getPivotPosition bounds pivot`): the absolute position of an
unrotated corner `corner` of an object with bounds `b` and normalized pivot
`(px, py)` after rendering is the corner rotated about the absolute pivot. -/
def renderedPoint (T : Trig) (b : Bounds) (px py rotation : ℚ)
    (corner : Point) : Point :=
  rotatePointAroundCenter T corner (getPivotPosition b px py) rotation

end SvgCanvas

namespace SvgCanvas

/-- `src/types.ts`: the eight resize handles. -/
inductive ResizeHandle
  | nw | n | ne | e | se | s | sw | w
deriving DecidableEq, Repr

/-- `src/geometry/resize.ts`: `getAnchorForHandle`. -/
def getAnchorForHandle : ResizeHandle → Point
  | .nw => ⟨1, 1⟩
  | .n  => ⟨1/2, 1⟩
  | .ne => ⟨0, 1⟩
  | .e  => ⟨0, 1/2⟩
  | .se => ⟨0, 0⟩
  | .s  => ⟨1/2, 0⟩
  | .sw => ⟨1, 0⟩
  | .w  => ⟨1, 1/2⟩

/-- `src/geometry/resize.ts`: `getRotatedAnchorPosition`. -/
def getRotatedAnchorPosition (bounds : Bounds) (anchor pivot : Point)
    (rotationMatrix : RotationMatrix) : Point :=
  let anchorLocalX := bounds.x + bounds.width * anchor.x
  let anchorLocalY := bounds.y + bounds.height * anchor.y
  let pivotAbsX := bounds.x + bounds.width * pivot.x
  let pivotAbsY := bounds.y + bounds.height * pivot.y
  { x := pivotAbsX + (anchorLocalX - pivotAbsX) * rotationMatrix.cos
          - (anchorLocalY - pivotAbsY) * rotationMatrix.sin
    y := pivotAbsY + (anchorLocalX - pivotAbsX) * rotationMatrix.sin
          + (anchorLocalY - pivotAbsY) * rotationMatrix.cos }

/-- Result of `getDriverDimension` (`'width' | 'height'` in the source). -/
inductive Driver
  | width | height
deriving DecidableEq, Repr

/-- Corner branch of `getDriverDimension`: proportional change decides. -/
def cornerDriver (localDx localDy originalWidth originalHeight : ℚ) : Driver :=
  let propX := |localDx| / originalWidth
  let propY := |localDy| / originalHeight
  if propX ≥ propY then .width else .height

/-- `src/geometry/resize.ts`: `getDriverDimension` (edge handles fix the
driver; all four corner handles share the proportional rule). -/
def getDriverDimension (handle : ResizeHandle) (localDx localDy : ℚ)
    (originalWidth originalHeight : ℚ) : Driver :=
  match handle with
  | .e  => .width
  | .w  => .width
  | .n  => .height
  | .s  => .height
  | .nw => cornerDriver localDx localDy originalWidth originalHeight
  | .ne => cornerDriver localDx localDy originalWidth originalHeight
  | .sw => cornerDriver localDx localDy originalWidth originalHeight
  | .se => cornerDriver localDx localDy originalWidth originalHeight

/-- `src/geometry/resize.ts`: `calculateResizedDimensions` (width, height). -/
def calculateResizedDimensions (handle : ResizeHandle)
    (originalWidth originalHeight localDx localDy : ℚ) : ℚ × ℚ :=
  match handle with
  | .nw => (originalWidth - localDx, originalHeight - localDy)
  | .n  => (originalWidth, originalHeight - localDy)
  | .ne => (originalWidth + localDx, originalHeight - localDy)
  | .e  => (originalWidth + localDx, originalHeight)
  | .se => (originalWidth + localDx, originalHeight + localDy)
  | .s  => (originalWidth, originalHeight + localDy)
  | .sw => (originalWidth - localDx, originalHeight + localDy)
  | .w  => (originalWidth - localDx, originalHeight)

/-- `src/geometry/resize.ts`: `calculateResizedPosition`. -/
def calculateResizedPosition (newWidth newHeight : ℚ) (anchor pivot : Point)
    (anchorScreenPos : Point) (rotationMatrix : RotationMatrix) : Point :=
  let newAnchorOffsetX := newWidth * (anchor.x - pivot.x)
  let newAnchorOffsetY := newHeight * (anchor.y - pivot.y)
  let rotatedOffsetX := newAnchorOffsetX * rotationMatrix.cos
                          - newAnchorOffsetY * rotationMatrix.sin
  let rotatedOffsetY := newAnchorOffsetX * rotationMatrix.sin
                          + newAnchorOffsetY * rotationMatrix.cos
  let newPivotScreenX := anchorScreenPos.x - rotatedOffsetX
  let newPivotScreenY := anchorScreenPos.y - rotatedOffsetY
  { x := newPivotScreenX - newWidth * pivot.x
    y := newPivotScreenY - newHeight * pivot.y }

/-- `src/geometry/resize.ts`: `ResizeState`. -/
structure ResizeState where
  startX : ℚ
  startY : ℚ
  handle : ResizeHandle
  originalBounds : Bounds
  pivot : Point
  anchor : Point
  anchorScreenPos : Point
  rotationMatrix : RotationMatrix
deriving DecidableEq, Repr

/-- `src/geometry/resize.ts`: `initResizeState`. -/
def initResizeState (T : Trig) (startPoint : Point) (handle : ResizeHandle)
    (bounds : Bounds) (pivot : Point) (rotation : ℚ) : ResizeState :=
  let rotationMatrix := createRotationMatrix T rotation
  let anchor := getAnchorForHandle handle
  let anchorScreenPos := getRotatedAnchorPosition bounds anchor pivot rotationMatrix
  { startX := startPoint.x
    startY := startPoint.y
    handle := handle
    originalBounds := bounds
    pivot := pivot
    anchor := anchor
    anchorScreenPos := anchorScreenPos
    rotationMatrix := rotationMatrix }

/-- `src/geometry/resize.ts`: `calculateResizeBounds`.  The optional
`aspectRatio` argument is modelled as `aspect : Option ℚ`; the source default
arguments `minWidth = 10`, `minHeight = 10` are passed explicitly. -/
def calculateResizeBounds (state : ResizeState) (currentPoint : Point)
    (minWidth minHeight : ℚ) (aspect : Option ℚ) : Bounds :=
  let screenDx := currentPoint.x - state.startX
  let screenDy := currentPoint.y - state.startY
  let localD := unrotateDeltaWithMatrix screenDx screenDy state.rotationMatrix
  let dims := calculateResizedDimensions state.handle
    state.originalBounds.width state.originalBounds.height localD.1 localD.2
  let dims1 : ℚ × ℚ :=
    match aspect with
    | none => dims
    | some a =>
      match getDriverDimension state.handle localD.1 localD.2
          state.originalBounds.width state.originalBounds.height with
      | .width => (dims.1, dims.1 / a)
      | .height => (dims.2 * a, dims.2)
  let dims2 : ℚ × ℚ :=
    match aspect with
    | none => (max dims1.1 minWidth, max dims1.2 minHeight)
    | some a =>
      let minByWidth := minWidth
      let minByHeight := minHeight * a
      if dims1.1 < minByWidth ∨ dims1.2 < minHeight then
        if minByWidth ≥ minByHeight then (minWidth, minWidth / a)
        else (minHeight * a, minHeight)
      else dims1
  let position := calculateResizedPosition dims2.1 dims2.2 state.anchor
    state.pivot state.anchorScreenPos state.rotationMatrix
  { x := position.x, y := position.y, width := dims2.1, height := dims2.2 }

/-- `handle.includes('w')` for the handle strings of `geometry/bounds.ts`. -/
def handleIncludesW : ResizeHandle → Bool
  | .nw => true
  | .sw => true
  | .w  => true
  | .n  => false
  | .ne => false
  | .e  => false
  | .se => false
  | .s  => false

/-- `handle.includes('n')` for the handle strings of `geometry/bounds.ts`. -/
def handleIncludesN : ResizeHandle → Bool
  | .nw => true
  | .n  => true
  | .ne => true
  | .e  => false
  | .se => false
  | .s  => false
  | .sw => false
  | .w  => false

/-- `src/geometry/bounds.ts`: `resizeBounds` (default `minWidth = 1`,
`minHeight = 1` passed explicitly). -/
def resizeBounds (originalBounds : Bounds) (handle : ResizeHandle)
    (deltaX deltaY minWidth minHeight : ℚ) : Bounds :=
  let b := originalBounds
  let s : ℚ × ℚ × ℚ × ℚ :=
    match handle with
    | .nw => (b.x + deltaX, b.y + deltaY, b.width - deltaX, b.height - deltaY)
    | .n  => (b.x, b.y + deltaY, b.width, b.height - deltaY)
    | .ne => (b.x, b.y + deltaY, b.width + deltaX, b.height - deltaY)
    | .e  => (b.x, b.y, b.width + deltaX, b.height)
    | .se => (b.x, b.y, b.width + deltaX, b.height + deltaY)
    | .s  => (b.x, b.y, b.width, b.height + deltaY)
    | .sw => (b.x + deltaX, b.y, b.width - deltaX, b.height + deltaY)
    | .w  => (b.x + deltaX, b.y, b.width - deltaX, b.height)
  let x := if s.2.2.1 < minWidth ∧ handleIncludesW handle then
    originalBounds.x + originalBounds.width - minWidth else s.1
  let y := if s.2.2.2 < minHeight ∧ handleIncludesN handle then
    originalBounds.y + originalBounds.height - minHeight else s.2.1
  let width := if s.2.2.1 < minWidth then minWidth else s.2.2.1
  let height := if s.2.2.2 < minHeight then minHeight else s.2.2.2
  { x := x, y := y, width := width, height := height }

/-- `src/snapping/types.ts`: `SnapType` (the `distribution` variant is used by
the distribution detector's active-snap conversion). -/
inductive SnapType
  | edge | center | grid | size | distribution
deriving DecidableEq, Repr

/-- `src/snapping/types.ts`: `SnapAxis`. -/
inductive SnapAxis
  | x | y
deriving DecidableEq, Repr

/-- `src/snapping/types.ts`: `SnapEdge`. -/
inductive SnapEdge
  | left | right | top | bottom | centerX | centerY | pivotX | pivotY
deriving DecidableEq, Repr

/-- `src/snapping/types.ts`: `SnapTarget`. -/
structure SnapTarget where
  type : SnapType
  axis : SnapAxis
  value : ℚ
  sourceObjectId : Option String
  sourceEdge : Option SnapEdge
  priority : ℚ
deriving DecidableEq, Repr

/-- `src/snapping/types.ts`: `RotatedBounds` (optional pivot defaults to the
center on read). -/
structure RotatedBounds where
  x : ℚ
  y : ℚ
  width : ℚ
  height : ℚ
  rotation : ℚ
  pivotX : Option ℚ
  pivotY : Option ℚ
deriving DecidableEq, Repr

/-- `src/snapping/types.ts`: `SnapPoints`.  In the source `pivotX`/`pivotY`
are optional fields, but both branches of `getSnapPoints` always set them, so
they are modelled as plain values (the `!== undefined` guards downstream are
then just the `≠ center` comparison). -/
structure SnapPoints where
  left : ℚ
  right : ℚ
  top : ℚ
  bottom : ℚ
  centerX : ℚ
  centerY : ℚ
  pivotX : ℚ
  pivotY : ℚ
  corners : List Point
deriving DecidableEq, Repr

/-- `src/snapping/types.ts`: `SnapSpatialObject`. -/
structure SnapSpatialObject where
  id : String
  bounds : Bounds
  rotation : Option ℚ
  pivotX : Option ℚ
  pivotY : Option ℚ
  parentId : Option String
deriving DecidableEq, Repr

/-- `src/snapping/rotation-utils.ts`: `getRotatedBoundsCenter`. -/
def getRotatedBoundsCenter (bounds : RotatedBounds) : Point :=
  let px := bounds.pivotX.getD (1/2)
  let py := bounds.pivotY.getD (1/2)
  { x := bounds.x + bounds.width * px
    y := bounds.y + bounds.height * py }

/-- `src/snapping/rotation-utils.ts`: `rotatePointAround`. -/
def rotatePointAround (T : Trig) (point center : Point) (angleDegrees : ℚ) : Point :=
  let c := (T angleDegrees).1
  let s := (T angleDegrees).2
  let dx := point.x - center.x
  let dy := point.y - center.y
  { x := center.x + dx * c - dy * s
    y := center.y + dx * s + dy * c }

/-- `src/snapping/rotation-utils.ts`: `getRotatedCorners`. -/
def getRotatedCorners (T : Trig) (bounds : RotatedBounds) : List Point :=
  let center := getRotatedBoundsCenter bounds
  let corners : List Point :=
    [ ⟨bounds.x, bounds.y⟩,
      ⟨bounds.x + bounds.width, bounds.y⟩,
      ⟨bounds.x + bounds.width, bounds.y + bounds.height⟩,
      ⟨bounds.x, bounds.y + bounds.height⟩ ]
  if bounds.rotation ≠ 0 then
    corners.map (fun corner => rotatePointAround T corner center bounds.rotation)
  else corners

/-- `Math.min(...xs)` on the (always nonempty) corner coordinate lists; the
empty-list default 0 is unreachable. -/
def listMinQ : List ℚ → ℚ
  | [] => 0
  | a :: t => t.foldl min a

/-- `Math.max(...xs)` on the (always nonempty) corner coordinate lists. -/
def listMaxQ : List ℚ → ℚ
  | [] => 0
  | a :: t => t.foldl max a

/-- `src/snapping/rotation-utils.ts`: `getRotatedSnapPoints`. -/
def getRotatedSnapPoints (T : Trig) (bounds : RotatedBounds) : SnapPoints :=
  let corners := getRotatedCorners T bounds
  let pivot := getRotatedBoundsCenter bounds
  let xs := corners.map Point.x
  let ys := corners.map Point.y
  let left := listMinQ xs
  let right := listMaxQ xs
  let top := listMinQ ys
  let bottom := listMaxQ ys
  { left := left, right := right, top := top, bottom := bottom
    centerX := (left + right) / 2
    centerY := (top + bottom) / 2
    pivotX := pivot.x
    pivotY := pivot.y
    corners := corners }

/-- `src/snapping/rotation-utils.ts`: `getSnapPoints` (`bounds.rotation &&
bounds.rotation !== 0` is the `≠ 0` test, since 0 is falsy). -/
def getSnapPoints (T : Trig) (bounds : RotatedBounds) : SnapPoints :=
  if bounds.rotation ≠ 0 then getRotatedSnapPoints T bounds
  else
    let pivot := getRotatedBoundsCenter bounds
    { left := bounds.x
      right := bounds.x + bounds.width
      top := bounds.y
      bottom := bounds.y + bounds.height
      centerX := bounds.x + bounds.width / 2
      centerY := bounds.y + bounds.height / 2
      pivotX := pivot.x
      pivotY := pivot.y
      corners :=
        [ ⟨bounds.x, bounds.y⟩,
          ⟨bounds.x + bounds.width, bounds.y⟩,
          ⟨bounds.x + bounds.width, bounds.y + bounds.height⟩,
          ⟨bounds.x, bounds.y + bounds.height⟩ ] }

/-- `src/snapping/rotation-utils.ts`: `getAABB`. -/
def getAABB (T : Trig) (obj : SnapSpatialObject) : Bounds :=
  let rotation := obj.rotation.getD 0
  if rotation = 0 then obj.bounds
  else
    let rotatedBounds : RotatedBounds :=
      { x := obj.bounds.x, y := obj.bounds.y
        width := obj.bounds.width, height := obj.bounds.height
        rotation := rotation
        pivotX := some (obj.pivotX.getD (1/2))
        pivotY := some (obj.pivotY.getD (1/2)) }
    let corners := getRotatedCorners T rotatedBounds
    let xs := corners.map Point.x
    let ys := corners.map Point.y
    { x := listMinQ xs, y := listMinQ ys
      width := listMaxQ xs - listMinQ xs
      height := listMaxQ ys - listMinQ ys }

/-- `src/snapping/snap-targets.ts`: `BASE_PRIORITIES`. -/
def basePriorityEdge : ℚ := 10

/-- `BASE_PRIORITIES.center`. -/
def basePriorityCenter : ℚ := 8

/-- `BASE_PRIORITIES.grid`. -/
def basePriorityGrid : ℚ := 5

/-- `BASE_PRIORITIES.size`. -/
def basePrioritySize : ℚ := 7

/-- `src/snapping/snap-targets.ts`: `DEFAULT_PROXIMITY_MULTIPLIER`. -/
def DEFAULT_PROXIMITY_MULTIPLIER : ℚ := 200

/-- `src/snapping/types.ts`: `SnapWeights` (scoring weight table). -/
structure SnapWeights where
  distance : ℚ
  direction : ℚ
  velocity : ℚ
  grabProximity : ℚ
  hierarchy : ℚ
  edgePriority : ℚ
  centerPriority : ℚ
  gridPriority : ℚ
  sizePriority : ℚ
deriving DecidableEq, Repr

/-- `src/snapping/types.ts`: `SnapConfiguration`.  The purely visual `guides`
and `debug` sub-configurations are omitted (no modelled function reads them);
`snapToDistribution` is read by the distribution detector. -/
structure SnapConfiguration where
  enabled : Bool
  snapToGrid : Bool
  snapToObjects : Bool
  snapToSizes : Bool
  snapToDistribution : Bool
  gridSize : ℚ
  snapThreshold : ℚ
  weights : SnapWeights
deriving DecidableEq, Repr

/-- `src/snapping/snap-targets.ts`: `isGeometricallyRelevant`. -/
def isGeometricallyRelevant (T : Trig) (sourceBounds : Bounds)
    (draggedBounds : RotatedBounds) (axis : SnapAxis)
    (proximityThreshold : ℚ) : Bool :=
  let draggedAABB := getSnapPoints T draggedBounds
  match axis with
  | .x =>
    let sourceTop := sourceBounds.y
    let sourceBottom := sourceBounds.y + sourceBounds.height
    let draggedTop := draggedAABB.top
    let draggedBottom := draggedAABB.bottom
    if ¬ (sourceBottom < draggedTop ∨ sourceTop > draggedBottom) then true
    else
      let yDistance := min |sourceBottom - draggedTop| |sourceTop - draggedBottom|
      decide (yDistance ≤ proximityThreshold)
  | .y =>
    let sourceLeft := sourceBounds.x
    let sourceRight := sourceBounds.x + sourceBounds.width
    let draggedLeft := draggedAABB.left
    let draggedRight := draggedAABB.right
    if ¬ (sourceRight < draggedLeft ∨ sourceLeft > draggedRight) then true
    else
      let xDistance := min |sourceRight - draggedLeft| |sourceLeft - draggedRight|
      decide (xDistance ≤ proximityThreshold)

/-- `src/snapping/snap-targets.ts`: `generateXAxisTargets` (the
`pivotX !== undefined` guard is always true for `getSnapPoints` output). -/
def generateXAxisTargets (object : SnapSpatialObject)
    (snapPoints : SnapPoints) : List SnapTarget :=
  [ { type := .edge, axis := .x, value := snapPoints.left,
      sourceObjectId := some object.id, sourceEdge := some .left,
      priority := basePriorityEdge },
    { type := .edge, axis := .x, value := snapPoints.right,
      sourceObjectId := some object.id, sourceEdge := some .right,
      priority := basePriorityEdge },
    { type := .center, axis := .x, value := snapPoints.centerX,
      sourceObjectId := some object.id, sourceEdge := some .centerX,
      priority := basePriorityCenter } ]
  ++ (if snapPoints.pivotX ≠ snapPoints.centerX then
      [ { type := .center, axis := .x, value := snapPoints.pivotX,
          sourceObjectId := some object.id, sourceEdge := some .pivotX,
          priority := basePriorityCenter } ] else [])

/-- `src/snapping/snap-targets.ts`: `generateYAxisTargets`. -/
def generateYAxisTargets (object : SnapSpatialObject)
    (snapPoints : SnapPoints) : List SnapTarget :=
  [ { type := .edge, axis := .y, value := snapPoints.top,
      sourceObjectId := some object.id, sourceEdge := some .top,
      priority := basePriorityEdge },
    { type := .edge, axis := .y, value := snapPoints.bottom,
      sourceObjectId := some object.id, sourceEdge := some .bottom,
      priority := basePriorityEdge },
    { type := .center, axis := .y, value := snapPoints.centerY,
      sourceObjectId := some object.id, sourceEdge := some .centerY,
      priority := basePriorityCenter } ]
  ++ (if snapPoints.pivotY ≠ snapPoints.centerY then
      [ { type := .center, axis := .y, value := snapPoints.pivotY,
          sourceObjectId := some object.id, sourceEdge := some .pivotY,
          priority := basePriorityCenter } ] else [])

/-- The `RotatedBounds` built from a `SnapSpatialObject` inside
`generateSnapTargets` (`rotation: object.rotation || 0`). -/
def objectRotatedBounds (object : SnapSpatialObject) : RotatedBounds :=
  { x := object.bounds.x, y := object.bounds.y
    width := object.bounds.width, height := object.bounds.height
    rotation := object.rotation.getD 0
    pivotX := object.pivotX, pivotY := object.pivotY }

/-- `src/snapping/snap-targets.ts`: `generateSnapTargets` (current version,
with the optional dragged bounds enabling the geometric relevance filter).
The `Set` of excluded ids is modelled as a list with membership test. -/
def generateSnapTargets (T : Trig) (objects : List SnapSpatialObject)
    (excludeIds : List String) (config : SnapConfiguration)
    (draggedBounds : Option RotatedBounds) : List SnapTarget :=
  let proximityThreshold := config.snapThreshold * DEFAULT_PROXIMITY_MULTIPLIER
  objects.flatMap fun object =>
    if object.id ∈ excludeIds then []
    else
      let bounds := getAABB T object
      let snapPoints := getSnapPoints T (objectRotatedBounds object)
      if config.snapToObjects then
        match draggedBounds with
        | none =>
          generateXAxisTargets object snapPoints ++ generateYAxisTargets object snapPoints
        | some db =>
          (if isGeometricallyRelevant T bounds db .x proximityThreshold then
            generateXAxisTargets object snapPoints else [])
          ++ (if isGeometricallyRelevant T bounds db .y proximityThreshold then
            generateYAxisTargets object snapPoints else [])
      else []

/-- `src/snapping/snap-targets.ts`: `generateGridTargets`.  The source loops
`for (x = startX; x ≤ endX; x += gridSize)`, which diverges for
`gridSize ≤ 0`; the model emits the same arithmetic progression for
`gridSize > 0` and nothing otherwise. -/
def generateGridTargets (viewBounds : Bounds) (gridSize : ℚ) : List SnapTarget :=
  let margin := gridSize * 2
  let startX := (⌊(viewBounds.x - margin) / gridSize⌋ : ℚ) * gridSize
  let endX := (⌈(viewBounds.x + viewBounds.width + margin) / gridSize⌉ : ℚ) * gridSize
  let startY := (⌊(viewBounds.y - margin) / gridSize⌋ : ℚ) * gridSize
  let endY := (⌈(viewBounds.y + viewBounds.height + margin) / gridSize⌉ : ℚ) * gridSize
  let stepsX : Nat := if 0 < gridSize then (⌊(endX - startX) / gridSize⌋ + 1).toNat else 0
  let stepsY : Nat := if 0 < gridSize then (⌊(endY - startY) / gridSize⌋ + 1).toNat else 0
  ((List.range stepsX).map fun i =>
    { type := .grid, axis := .x, value := startX + (i : ℚ) * gridSize,
      sourceObjectId := none, sourceEdge := none, priority := basePriorityGrid })
  ++ ((List.range stepsY).map fun i =>
    { type := .grid, axis := .y, value := startY + (i : ℚ) * gridSize,
      sourceObjectId := none, sourceEdge := none, priority := basePriorityGrid })

/-- `src/snapping/snap-targets.ts`: `generatePageBoundaryTargets`. -/
def generatePageBoundaryTargets (viewBounds : Bounds) : List SnapTarget :=
  [ { type := .edge, axis := .x, value := viewBounds.x,
      sourceObjectId := none, sourceEdge := some .left,
      priority := basePriorityEdge + 2 },
    { type := .edge, axis := .x, value := viewBounds.x + viewBounds.width,
      sourceObjectId := none, sourceEdge := some .right,
      priority := basePriorityEdge + 2 },
    { type := .edge, axis := .y, value := viewBounds.y,
      sourceObjectId := none, sourceEdge := some .top,
      priority := basePriorityEdge + 2 },
    { type := .edge, axis := .y, value := viewBounds.y + viewBounds.height,
      sourceObjectId := none, sourceEdge := some .bottom,
      priority := basePriorityEdge + 2 },
    { type := .center, axis := .x, value := viewBounds.x + viewBounds.width / 2,
      sourceObjectId := none, sourceEdge := some .centerX,
      priority := basePriorityCenter + 2 },
    { type := .center, axis := .y, value := viewBounds.y + viewBounds.height / 2,
      sourceObjectId := none, sourceEdge := some .centerY,
      priority := basePriorityCenter + 2 } ]

/-- `src/snapping/snap-targets.ts`: `generateAllSnapTargets` (current
version; `computeSnap` calls it without dragged bounds). -/
def generateAllSnapTargets (T : Trig) (objects : List SnapSpatialObject)
    (excludeIds : List String) (viewBounds : Bounds) (config : SnapConfiguration)
    (draggedBounds : Option RotatedBounds) : List SnapTarget :=
  (if config.snapToObjects then generatePageBoundaryTargets viewBounds else [])
  ++ (if config.snapToObjects || config.snapToSizes then
      generateSnapTargets T objects excludeIds config draggedBounds else [])
  ++ (if config.snapToGrid then generateGridTargets viewBounds config.gridSize else [])

/-- `src/snapping/snap-engine.ts`: `getGrabProximityWeight`. -/
def getGrabProximityWeight (grabPoint : Point) : SnapEdge → ℚ
  | .left => 1 - grabPoint.x
  | .right => grabPoint.x
  | .top => 1 - grabPoint.y
  | .bottom => grabPoint.y
  | .centerX => 1 - |grabPoint.x - 1/2| * 2
  | .centerY => 1 - |grabPoint.y - 1/2| * 2
  | .pivotX => 1 - |grabPoint.x - 1/2| * 2
  | .pivotY => 1 - |grabPoint.y - 1/2| * 2

/-- `src/snapping/snap-engine.ts`: `getAncestorChain`.  The source `while`
loop is unbounded (it terminates only on acyclic parent maps); the model
bounds the walked depth by an explicit fuel. -/
def getAncestorChain (getParent : String → Option String) : Nat → String → List String
  | 0, _ => []
  | Nat.succ fuel, id =>
    match getParent id with
    | none => []
    | some p => p :: getAncestorChain getParent fuel p

/-- Fuel bound for ancestor chains (source recursion is unbounded). -/
def hierarchyChainFuel : Nat := 1000

/-- The shared-ancestor loop of `getHierarchyWeight` (`for i ...` with
`targetAncestors.indexOf`). -/
def sharedAncestorWeight (targetAncestors : List String) :
    List String → Nat → Option ℚ
  | [], _ => none
  | a :: rest, i =>
    match targetAncestors.findIdx? (fun b => decide (b = a)) with
    | some ti => some (max (3/10) (1 - ((max i ti : Nat) : ℚ) * (1/5)))
    | none => sharedAncestorWeight targetAncestors rest (i + 1)

/-- `src/snapping/snap-engine.ts`: `getHierarchyWeight`. -/
def getHierarchyWeight (draggedId : String) (targetSourceId : Option String)
    (getParent : Option (String → Option String)) : ℚ :=
  match targetSourceId with
  | none => 1/2
  | some tid =>
    match getParent with
    | none => 1/2
    | some g =>
      let draggedAncestors := getAncestorChain g hierarchyChainFuel draggedId
      let targetAncestors := getAncestorChain g hierarchyChainFuel tid
      if draggedId = tid then 0
      else if draggedAncestors.head?.isSome ∧
          draggedAncestors.head? = targetAncestors.head? then 1
      else
        match sharedAncestorWeight targetAncestors draggedAncestors 0 with
        | some w => w
        | none => 1/5

/-- `Math.sign`. -/
def qSign (q : ℚ) : ℚ := if 0 < q then 1 else if q < 0 then -1 else 0

/-- `src/snapping/snap-engine.ts`: `getDirectionWeight`. -/
def getDirectionWeight (movementDirection : Point) (currentValue targetValue : ℚ)
    (axis : SnapAxis) : ℚ :=
  let movementComponent := match axis with
    | .x => movementDirection.x
    | .y => movementDirection.y
  let targetDirection := qSign (targetValue - currentValue)
  let dot := movementComponent * targetDirection
  max 0 (1/2 + dot * (1/2))

/-- `src/snapping/snap-engine.ts`: `getVelocityWeight` (default
`maxVelocity = 20` passed explicitly at the call site). -/
def getVelocityWeight (velocity maxVelocity : ℚ) : ℚ :=
  1 - min (velocity / maxVelocity) 1

/-- `src/snapping/snap-engine.ts`: `getTypePriorityWeight` (the `default`
branch of the switch returns 1.0). -/
def getTypePriorityWeight (target : SnapTarget) (config : SnapConfiguration) : ℚ :=
  match target.type with
  | .edge => config.weights.edgePriority
  | .center => config.weights.centerPriority
  | .grid => config.weights.gridPriority
  | .size => config.weights.sizePriority
  | .distribution => 1

/-- `src/snapping/types.ts`: `ScoreBreakdown`. -/
structure ScoreBreakdown where
  distance : ℚ
  grabProximity : ℚ
  hierarchy : ℚ
  direction : ℚ
  velocity : ℚ
  typePriority : ℚ
deriving DecidableEq, Repr

/-- `src/snapping/types.ts`: `DragSnapContext`. -/
structure DragSnapContext where
  draggedBounds : RotatedBounds
  draggedId : String
  grabPoint : Point
  movementDirection : Point
  velocity : ℚ
  delta : Point
deriving DecidableEq, Repr

/-- `src/snapping/types.ts`: `ScoredCandidate`. -/
structure ScoredCandidate where
  target : SnapTarget
  score : ℚ
  breakdown : ScoreBreakdown
  distance : ℚ
  guideStart : Point
  guideEnd : Point
  dragSnapEdge : SnapEdge
deriving DecidableEq, Repr

/-- `src/snapping/types.ts`: `ActiveSnap` (without the size-snap-only
`matchedSize` field, which drag snapping never sets). -/
structure ActiveSnap where
  target : SnapTarget
  distance : ℚ
  score : ℚ
  guideStart : Point
  guideEnd : Point
  sourceBounds : Option Bounds
deriving DecidableEq, Repr

/-- `src/snapping/types.ts`: `SnapResult`. -/
structure SnapResult where
  snappedPosition : Point
  activeSnaps : List ActiveSnap
  candidates : List ScoredCandidate
deriving DecidableEq, Repr

/-- `src/snapping/snap-engine.ts`: `computeScore` (returns the total score
and the breakdown). -/
def computeScore (target : SnapTarget) (distance : ℚ) (dragSnapEdge : SnapEdge)
    (context : DragSnapContext) (config : SnapConfiguration)
    (getParent : Option (String → Option String)) : ℚ × ScoreBreakdown :=
  let distanceScore := max 0 ((config.snapThreshold - distance) / config.snapThreshold)
  let grabProximityScore := getGrabProximityWeight context.grabPoint dragSnapEdge
  let hierarchyScore := getHierarchyWeight context.draggedId target.sourceObjectId getParent
  let currentValue := match target.axis with
    | .x => context.draggedBounds.x + context.draggedBounds.width / 2
    | .y => context.draggedBounds.y + context.draggedBounds.height / 2
  let directionScore := getDirectionWeight context.movementDirection currentValue
    target.value target.axis
  let velocityScore := getVelocityWeight context.velocity 20
  let typePriorityScore := getTypePriorityWeight target config
  let score :=
    distanceScore * config.weights.distance +
    grabProximityScore * config.weights.grabProximity +
    hierarchyScore * config.weights.hierarchy +
    directionScore * config.weights.direction +
    velocityScore * config.weights.velocity +
    typePriorityScore * target.priority
  (score,
   { distance := distanceScore, grabProximity := grabProximityScore
     hierarchy := hierarchyScore, direction := directionScore
     velocity := velocityScore, typePriority := typePriorityScore })

/-- `src/snapping/snap-engine.ts`: `createGuideEndpoints`
(guide start, guide end). -/
def createGuideEndpoints (target : SnapTarget) (draggedSnapPoints : SnapPoints)
    (viewBounds : Bounds) (sourceBounds : Option Bounds) : Point × Point :=
  match target.axis with
  | .x =>
    match sourceBounds with
    | none =>
      (⟨target.value, viewBounds.y⟩, ⟨target.value, viewBounds.y + viewBounds.height⟩)
    | some sb =>
      match target.sourceObjectId with
      | none =>
        (⟨target.value, viewBounds.y⟩, ⟨target.value, viewBounds.y + viewBounds.height⟩)
      | some _ =>
        let minY := min draggedSnapPoints.top sb.y
        let maxY := max draggedSnapPoints.bottom (sb.y + sb.height)
        (⟨target.value, minY⟩, ⟨target.value, maxY⟩)
  | .y =>
    match sourceBounds with
    | none =>
      (⟨viewBounds.x, target.value⟩, ⟨viewBounds.x + viewBounds.width, target.value⟩)
    | some sb =>
      match target.sourceObjectId with
      | none =>
        (⟨viewBounds.x, target.value⟩, ⟨viewBounds.x + viewBounds.width, target.value⟩)
      | some _ =>
        let minX := min draggedSnapPoints.left sb.x
        let maxX := max draggedSnapPoints.right (sb.x + sb.width)
        (⟨minX, target.value⟩, ⟨maxX, target.value⟩)

/-- `src/snapping/snap-engine.ts`: `getDragSnapValuesForAxis` (the
`!== undefined` guard on the pivot is always true for `getSnapPoints`
output, so only the `≠ center` comparison remains). -/
def getDragSnapValuesForAxis (snapPoints : SnapPoints) (axis : SnapAxis) :
    List (ℚ × SnapEdge) :=
  match axis with
  | .x =>
    [ (snapPoints.left, SnapEdge.left),
      (snapPoints.right, SnapEdge.right),
      (snapPoints.centerX, SnapEdge.centerX) ]
    ++ (if snapPoints.pivotX ≠ snapPoints.centerX then
        [(snapPoints.pivotX, SnapEdge.pivotX)] else [])
  | .y =>
    [ (snapPoints.top, SnapEdge.top),
      (snapPoints.bottom, SnapEdge.bottom),
      (snapPoints.centerY, SnapEdge.centerY) ]
    ++ (if snapPoints.pivotY ≠ snapPoints.centerY then
        [(snapPoints.pivotY, SnapEdge.pivotY)] else [])

/-- JS `Map` lookup on the id → AABB map built by `computeSnap`
(`Map.set` overwrites, so the last entry for a key wins). -/
def mapGetBounds (entries : List (String × Bounds)) (key : String) : Option Bounds :=
  (entries.reverse.find? (fun e => decide (e.1 = key))).map Prod.snd

/-- The scored candidate `computeSnap` pushes for a target paired with a drag
snap value/edge (distance filter already passed). -/
def scoredCandidateFor (context : DragSnapContext) (config : SnapConfiguration)
    (getParent : Option (String → Option String))
    (objectBoundsMap : List (String × Bounds)) (viewBounds : Bounds)
    (draggedSnapPoints : SnapPoints) (target : SnapTarget)
    (dragValue : ℚ) (dragEdge : SnapEdge) : ScoredCandidate :=
  let distance := |dragValue - target.value|
  let scored := computeScore target distance dragEdge context config getParent
  let sourceBounds := match target.sourceObjectId with
    | some sid => mapGetBounds objectBoundsMap sid
    | none => none
  let guide := createGuideEndpoints target draggedSnapPoints viewBounds sourceBounds
  { target := target, score := scored.1, breakdown := scored.2
    distance := distance, guideStart := guide.1, guideEnd := guide.2
    dragSnapEdge := dragEdge }

/-- The per-axis candidate list built by `computeSnap`'s scoring loop
(`candidatesX` for `.x`, `candidatesY` for `.y`), in push order. -/
def axisCandidates (context : DragSnapContext) (config : SnapConfiguration)
    (getParent : Option (String → Option String))
    (objectBoundsMap : List (String × Bounds)) (viewBounds : Bounds)
    (draggedSnapPoints : SnapPoints) (targets : List SnapTarget)
    (axis : SnapAxis) : List ScoredCandidate :=
  targets.flatMap fun target =>
    if target.axis = axis then
      (getDragSnapValuesForAxis draggedSnapPoints target.axis).filterMap fun ve =>
        if |ve.1 - target.value| ≤ config.snapThreshold then
          some (scoredCandidateFor context config getParent objectBoundsMap
            viewBounds draggedSnapPoints target ve.1 ve.2)
        else none
    else []

/-- Insertion step of the stable sort by descending score. -/
def insertByScore (c : ScoredCandidate) : List ScoredCandidate → List ScoredCandidate
  | [] => [c]
  | d :: ds => if d.score ≤ c.score then c :: d :: ds else d :: insertByScore c ds

/-- JS `Array.prototype.sort` with comparator `(a, b) => b.score - a.score`
is a stable sort by descending score (ES2019); stable sorting is unique, so
this insertion sort (which keeps an earlier element ahead of later equal
scores) computes the same list. -/
def sortByScoreDesc : List ScoredCandidate → List ScoredCandidate
  | [] => []
  | c :: cs => insertByScore c (sortByScoreDesc cs)

/-- JS `expr || fallback` on an optional number: `undefined` and `0` are
falsy. -/
def jsOrQ (v : Option ℚ) (fallback : ℚ) : ℚ :=
  match v with
  | none => fallback
  | some q => if q = 0 then fallback else q

/-- The `currentDragValue` computation of `computeSnap`'s best-snap blocks:
`find(v => v.edge === best.dragSnapEdge)?.value || snapPoints.left` (resp.
`.top` on the y axis). -/
def currentDragValueFor (snapPoints : SnapPoints) (axis : SnapAxis)
    (e : SnapEdge) : ℚ :=
  let found := ((getDragSnapValuesForAxis snapPoints axis).find?
    (fun p => decide (p.2 = e))).map Prod.fst
  jsOrQ found (match axis with | .x => snapPoints.left | .y => snapPoints.top)

/-- The `ActiveSnap` `computeSnap` pushes for a winning candidate. -/
def activeSnapFor (objectBoundsMap : List (String × Bounds))
    (c : ScoredCandidate) : ActiveSnap :=
  { target := c.target, distance := c.distance, score := c.score
    guideStart := c.guideStart, guideEnd := c.guideEnd
    sourceBounds := match c.target.sourceObjectId with
      | some sid => mapGetBounds objectBoundsMap sid
      | none => none }

/-- The id → AABB lookup map built at the top of `computeSnap`. -/
def dragObjectBoundsMap (T : Trig) (objects : List SnapSpatialObject) :
    List (String × Bounds) :=
  objects.map fun o => (o.id, getAABB T o)

/-- The target list `computeSnap` generates: note it passes *no* dragged
bounds to `generateAllSnapTargets` (the 4-argument call in the source), so
the geometric relevance filter is not applied during drags. -/
def dragTargets (T : Trig) (context : DragSnapContext)
    (objects : List SnapSpatialObject) (viewBounds : Bounds)
    (config : SnapConfiguration) : List SnapTarget :=
  generateAllSnapTargets T objects [context.draggedId] viewBounds config none

/-- The per-axis scored candidate list of `computeSnap`. -/
def dragCandidates (T : Trig) (context : DragSnapContext)
    (objects : List SnapSpatialObject) (viewBounds : Bounds)
    (config : SnapConfiguration)
    (getParent : Option (String → Option String)) (axis : SnapAxis) :
    List ScoredCandidate :=
  axisCandidates context config getParent (dragObjectBoundsMap T objects)
    viewBounds (getSnapPoints T context.draggedBounds)
    (dragTargets T context objects viewBounds config) axis

/-- `candidates[0]` after the descending stable sort: the winning candidate
of an axis, if any. -/
def bestDragCandidate (T : Trig) (context : DragSnapContext)
    (objects : List SnapSpatialObject) (viewBounds : Bounds)
    (config : SnapConfiguration)
    (getParent : Option (String → Option String)) (axis : SnapAxis) :
    Option ScoredCandidate :=
  (sortByScoreDesc (dragCandidates T context objects viewBounds config getParent axis)).head?

/-- `src/snapping/snap-engine.ts`: `computeSnap`.  The source sorts the two
axis buckets, takes the head of each, computes the snapped coordinates via
the (`|| left`/`|| top`) fallback, and returns all candidates re-sorted; the
final list equals the single stable sort of the concatenated buckets. -/
def computeSnap (T : Trig) (context : DragSnapContext)
    (objects : List SnapSpatialObject) (viewBounds : Bounds)
    (config : SnapConfiguration)
    (getParent : Option (String → Option String)) : SnapResult :=
  if config.enabled then
    let obm := dragObjectBoundsMap T objects
    let sp := getSnapPoints T context.draggedBounds
    let bX := bestDragCandidate T context objects viewBounds config getParent SnapAxis.x
    let bY := bestDragCandidate T context objects viewBounds config getParent SnapAxis.y
    { snappedPosition :=
        { x := match bX with
            | none => context.draggedBounds.x
            | some c => context.draggedBounds.x +
                (c.target.value - currentDragValueFor sp SnapAxis.x c.dragSnapEdge)
          y := match bY with
            | none => context.draggedBounds.y
            | some c => context.draggedBounds.y +
                (c.target.value - currentDragValueFor sp SnapAxis.y c.dragSnapEdge) }
      activeSnaps :=
        (match bX with | none => [] | some c => [activeSnapFor obm c])
        ++ (match bY with | none => [] | some c => [activeSnapFor obm c])
      candidates := sortByScoreDesc
        (dragCandidates T context objects viewBounds config getParent SnapAxis.x
          ++ dragCandidates T context objects viewBounds config getParent SnapAxis.y) }
  else
    { snappedPosition := { x := context.draggedBounds.x, y := context.draggedBounds.y }
      activeSnaps := []
      candidates := [] }

/-- `src/snapping/distribution.ts`: `ObjectWithBounds`. -/
structure ObjectWithBounds where
  id : String
  bounds : Bounds
  centerX : ℚ
  centerY : ℚ
  left : ℚ
  right : ℚ
  top : ℚ
  bottom : ℚ
deriving DecidableEq, Repr

/-- `DistributionGap` (field `end` is a Lean keyword; renamed `stop`). -/
structure DistributionGap where
  start : Point
  stop : Point
  distance : ℚ
  axis : SnapAxis
deriving DecidableEq, Repr

/-- `DistributionPattern` union: `'row' | 'column' | 'staircase'`. -/
inductive DistributionPattern
  | row | column | staircase
deriving DecidableEq, Repr

/-- `DistributionSnapInfo`. -/
structure DistributionSnapInfo where
  pattern : DistributionPattern
  objectIds : List String
  spacing : ℚ
  gaps : List DistributionGap
deriving DecidableEq, Repr

/-- `src/snapping/distribution.ts`: `DistributionCandidate`. -/
structure DistributionCandidate where
  position : Point
  info : DistributionSnapInfo
  distance : ℚ
  score : ℚ
deriving DecidableEq, Repr

/-- `src/snapping/distribution.ts`: `toObjectWithBounds`. -/
def toObjectWithBounds (T : Trig) (obj : SnapSpatialObject) : ObjectWithBounds :=
  let aabb := getAABB T obj
  { id := obj.id, bounds := aabb
    centerX := aabb.x + aabb.width / 2, centerY := aabb.y + aabb.height / 2
    left := aabb.x, right := aabb.x + aabb.width
    top := aabb.y, bottom := aabb.y + aabb.height }

/-- `src/snapping/distribution.ts`: `draggedToBounds`. -/
def draggedToBounds (T : Trig) (bounds : RotatedBounds) (id : String) :
    ObjectWithBounds :=
  let sp := getSnapPoints T bounds
  { id := id
    bounds := { x := sp.left, y := sp.top
                width := sp.right - sp.left, height := sp.bottom - sp.top }
    centerX := sp.centerX, centerY := sp.centerY
    left := sp.left, right := sp.right, top := sp.top, bottom := sp.bottom }

/-- `src/snapping/distribution.ts`: `rangesOverlap`. -/
def rangesOverlap (a1 a2 b1 b2 tolerance : ℚ) : Bool :=
  if a2 + tolerance < b1 ∨ b2 + tolerance < a1 then false else true

/-- `src/snapping/distribution.ts`: `gapX`. -/
def gapX (left right : ObjectWithBounds) : ℚ := right.left - left.right

/-- `src/snapping/distribution.ts`: `gapY`. -/
def gapY (top bottom : ObjectWithBounds) : ℚ := bottom.top - top.bottom

/-- `src/snapping/distribution.ts`: `areValuesEqual`. -/
def areValuesEqual (values : List ℚ) (tolerance : ℚ) : Bool :=
  if values.length < 2 then true
  else
    let avg := values.foldl (· + ·) 0 / (values.length : ℚ)
    values.all fun v => if |v - avg| ≤ tolerance then true else false

/-- The group-update step of `findEqualGaps`: a gap joins the first group
within tolerance (whose value is recomputed as the average of its member
gaps), otherwise it starts a new group. -/
def addGapToGroups (gaps : List ℚ) (tolerance gap : ℚ) (i : Nat) :
    List (ℚ × List Nat) → List (ℚ × List Nat)
  | [] => [(gap, [i])]
  | (v, idxs) :: rest =>
    if |gap - v| ≤ tolerance then
      let idxs2 := idxs ++ [i]
      ((idxs2.foldl (fun sum idx => sum + gaps.getD idx 0) 0) / (idxs2.length : ℚ),
        idxs2) :: rest
    else (v, idxs) :: addGapToGroups gaps tolerance gap i rest

/-- Insertion step of the stable sort of gap groups by descending member
count. -/
def insertGroupByCount (c : ℚ × List Nat) :
    List (ℚ × List Nat) → List (ℚ × List Nat)
  | [] => [c]
  | d :: ds => if d.2.length ≤ c.2.length then c :: d :: ds
               else d :: insertGroupByCount c ds

/-- Stable sort of gap groups by descending member count (JS stable
`sort((a, b) => b.indices.length - a.indices.length)`). -/
def sortGroupsByCountDesc : List (ℚ × List Nat) → List (ℚ × List Nat)
  | [] => []
  | c :: cs => insertGroupByCount c (sortGroupsByCountDesc cs)

/-- `src/snapping/distribution.ts`: `findEqualGaps` (value, member indices);
negative gaps are skipped, groups need at least two members. -/
def findEqualGaps (gaps : List ℚ) (tolerance : ℚ) : Option (ℚ × List Nat) :=
  if gaps.length < 2 then none
  else
    let groups := gaps.enum.foldl
      (fun gs p => if p.2 < 0 then gs else addGapToGroups gaps tolerance p.2 p.1 gs) []
    let validGroups := groups.filter fun g => decide (2 ≤ g.2.length)
    match sortGroupsByCountDesc validGroups with
    | [] => none
    | g :: _ => some g

/-- `src/snapping/distribution.ts`: `average`. -/
def average (values : List ℚ) : ℚ :=
  if values.length = 0 then 0
  else values.foldl (· + ·) 0 / (values.length : ℚ)

/-- `src/snapping/distribution.ts`: `GAP_TOLERANCE` (1 px). -/
def GAP_TOLERANCE : ℚ := 1

/-- `src/snapping/distribution.ts`: `createRowGaps`. -/
def createRowGaps (sortedObjects : List ObjectWithBounds)
    (targetSpacing : ℚ) : List DistributionGap :=
  (sortedObjects.zip sortedObjects.tail).filterMap fun lr =>
    let actualGap := lr.2.left - lr.1.right
    if |actualGap - targetSpacing| > GAP_TOLERANCE then none
    else
      let centerY := (lr.1.centerY + lr.2.centerY) / 2
      some { start := ⟨lr.1.right, centerY⟩, stop := ⟨lr.2.left, centerY⟩
             distance := actualGap, axis := .x }

/-- `src/snapping/distribution.ts`: `createColumnGaps`. -/
def createColumnGaps (sortedObjects : List ObjectWithBounds)
    (targetSpacing : ℚ) : List DistributionGap :=
  (sortedObjects.zip sortedObjects.tail).filterMap fun tb =>
    let actualGap := tb.2.top - tb.1.bottom
    if |actualGap - targetSpacing| > GAP_TOLERANCE then none
    else
      let centerX := (tb.1.centerX + tb.2.centerX) / 2
      some { start := ⟨centerX, tb.1.bottom⟩, stop := ⟨centerX, tb.2.top⟩
             distance := actualGap, axis := .y }

/-- `src/snapping/distribution.ts`: `createStaircaseGaps`. -/
def createStaircaseGaps (sortedObjects : List ObjectWithBounds)
    (deltaX deltaY : ℚ) : List DistributionGap :=
  (sortedObjects.zip sortedObjects.tail).flatMap fun cn =>
    (if 1 < |deltaX| then
      [ { start := ⟨cn.1.right, (cn.1.centerY + cn.2.centerY) / 2⟩
          stop := ⟨cn.2.left, (cn.1.centerY + cn.2.centerY) / 2⟩
          distance := |cn.2.left - cn.1.right|, axis := SnapAxis.x } ]
    else [])
    ++ (if 1 < |deltaY| then
      [ { start := ⟨(cn.1.centerX + cn.2.centerX) / 2, cn.1.bottom⟩
          stop := ⟨(cn.1.centerX + cn.2.centerX) / 2, cn.2.top⟩
          distance := |cn.2.top - cn.1.bottom|, axis := SnapAxis.y } ]
    else [])

/-- `src/snapping/distribution.ts`: `calculateDistributionScore`. -/
def calculateDistributionScore (objectCount : Nat) (distance threshold : ℚ) : ℚ :=
  let distanceScore := max 0 ((threshold - distance) / threshold)
  let countBonus := min ((objectCount : ℚ) / 5) 1
  distanceScore * (1 + countBonus * (1/2))

/-- Insertion step of the stable ascending sort by `centerX`. -/
def insertByCenterX (c : ObjectWithBounds) :
    List ObjectWithBounds → List ObjectWithBounds
  | [] => [c]
  | d :: ds => if c.centerX ≤ d.centerX then c :: d :: ds
               else d :: insertByCenterX c ds

/-- JS stable `sort((a, b) => a.centerX - b.centerX)`. -/
def sortByCenterX : List ObjectWithBounds → List ObjectWithBounds
  | [] => []
  | c :: cs => insertByCenterX c (sortByCenterX cs)

/-- Insertion step of the stable ascending sort by `centerY`. -/
def insertByCenterY (c : ObjectWithBounds) :
    List ObjectWithBounds → List ObjectWithBounds
  | [] => [c]
  | d :: ds => if c.centerY ≤ d.centerY then c :: d :: ds
               else d :: insertByCenterY c ds

/-- JS stable `sort((a, b) => a.centerY - b.centerY)`. -/
def sortByCenterY : List ObjectWithBounds → List ObjectWithBounds
  | [] => []
  | c :: cs => insertByCenterY c (sortByCenterY cs)

/-- `src/snapping/distribution.ts`: `detectRowDistribution` (the default
`minObjects = 2` is passed explicitly; the unused source binding
`const equalGaps = findEqualGaps(...)` is dead code and elided). -/
def detectRowDistribution (dragged : ObjectWithBounds)
    (objects : List ObjectWithBounds) (threshold : ℚ) (minObjects : Nat) :
    Option DistributionCandidate :=
  let rowCandidates := objects.filter fun obj =>
    rangesOverlap dragged.top dragged.bottom obj.top obj.bottom (threshold * 2)
  if rowCandidates.length < minObjects then none
  else
    let sorted := sortByCenterX rowCandidates
    let gaps := (sorted.zip sorted.tail).map fun lr => gapX lr.1 lr.2
    if gaps.length = 0 ∧ sorted.length < 2 then none
    else
      let draggedWidth := dragged.right - dragged.left
      let between := (sorted.zip sorted.tail).findSome? fun lr =>
        let currentGap := gapX lr.1 lr.2
        if currentGap < draggedWidth then none
        else
          let insertionGap := (currentGap - draggedWidth) / 2
          if insertionGap < 0 then none
          else
            let newX := lr.1.right + insertionGap
            let betweenDist := |dragged.left - newX|
            if betweenDist ≤ threshold then
              let snapped := { dragged with
                left := newX,
                right := newX + draggedWidth,
                centerX := newX + draggedWidth / 2 }
              let threeObjects := [lr.1, snapped, lr.2]
              some { position := ⟨newX, dragged.bounds.y⟩
                     info := { pattern := .row
                               objectIds := threeObjects.map (fun o => o.id)
                               spacing := insertionGap
                               gaps := createRowGaps threeObjects insertionGap }
                     distance := betweenDist
                     score := calculateDistributionScore threeObjects.length
                       betweenDist threshold }
            else none
      match between with
      | some c => some c
      | none =>
        let sortedWithDragged := sortByCenterX (sorted ++ [dragged])
        let draggedIndex :=
          (sortedWithDragged.findIdx? fun o => decide (o.id = dragged.id)).getD 0
        let leftNeighbor := if 0 < draggedIndex then
          sortedWithDragged[draggedIndex - 1]? else none
        let rightNeighbor := if draggedIndex < sortedWithDragged.length - 1 then
          sortedWithDragged[draggedIndex + 1]? else none
        (List.range gaps.length).findSome? fun gapIndex =>
          let existingGap := gaps.getD gapIndex 0
          if existingGap < 0 then none
          else
            let gapLeftObj := sorted.getD gapIndex dragged
            let gapRightObj := sorted.getD (gapIndex + 1) dragged
            let leftCheck : Option DistributionCandidate :=
              match leftNeighbor with
              | none => none
              | some ln =>
                let gapDiff := |gapX ln dragged - existingGap|
                if gapDiff ≤ threshold ∧ 0 < gapDiff then
                  let idealX := ln.right + existingGap
                  let snapDistance := |dragged.left - idealX|
                  let snapped := { dragged with
                    left := idealX,
                    right := idealX + draggedWidth,
                    centerX := idealX + draggedWidth / 2 }
                  let newGapCenterY := (ln.centerY + snapped.centerY) / 2
                  let allGaps : List DistributionGap :=
                    [ { start := ⟨ln.right, newGapCenterY⟩
                        stop := ⟨snapped.left, newGapCenterY⟩
                        distance := existingGap, axis := .x } ]
                    ++ (if gapLeftObj.id ≠ ln.id ∨ gapRightObj.id ≠ dragged.id then
                        [ { start := ⟨gapLeftObj.right,
                              (gapLeftObj.centerY + gapRightObj.centerY) / 2⟩
                            stop := ⟨gapRightObj.left,
                              (gapLeftObj.centerY + gapRightObj.centerY) / 2⟩
                            distance := existingGap, axis := .x } ]
                      else [])
                  some { position := ⟨idealX, dragged.bounds.y⟩
                         info := { pattern := .row
                                   objectIds := [ln.id, dragged.id, gapLeftObj.id,
                                     gapRightObj.id]
                                   spacing := existingGap, gaps := allGaps }
                         distance := snapDistance
                         score := calculateDistributionScore 2 snapDistance threshold }
                else none
            match leftCheck with
            | some c => some c
            | none =>
              match rightNeighbor with
              | none => none
              | some rn =>
                let gapDiff := |gapX dragged rn - existingGap|
                if gapDiff ≤ threshold ∧ 0 < gapDiff then
                  let idealX := rn.left - existingGap - draggedWidth
                  let snapDistance := |dragged.left - idealX|
                  let snapped := { dragged with
                    left := idealX,
                    right := idealX + draggedWidth,
                    centerX := idealX + draggedWidth / 2 }
                  let newGapCenterY := (snapped.centerY + rn.centerY) / 2
                  let allGaps : List DistributionGap :=
                    [ { start := ⟨snapped.right, newGapCenterY⟩
                        stop := ⟨rn.left, newGapCenterY⟩
                        distance := existingGap, axis := .x } ]
                    ++ (if gapLeftObj.id ≠ dragged.id ∨ gapRightObj.id ≠ rn.id then
                        [ { start := ⟨gapLeftObj.right,
                              (gapLeftObj.centerY + gapRightObj.centerY) / 2⟩
                            stop := ⟨gapRightObj.left,
                              (gapLeftObj.centerY + gapRightObj.centerY) / 2⟩
                            distance := existingGap, axis := .x } ]
                      else [])
                  some { position := ⟨idealX, dragged.bounds.y⟩
                         info := { pattern := .row
                                   objectIds := [dragged.id, rn.id, gapLeftObj.id,
                                     gapRightObj.id]
                                   spacing := existingGap, gaps := allGaps }
                         distance := snapDistance
                         score := calculateDistributionScore 2 snapDistance threshold }
                else none

/-- `src/snapping/distribution.ts`: `detectColumnDistribution` (the y-axis
mirror of the row detector). -/
def detectColumnDistribution (dragged : ObjectWithBounds)
    (objects : List ObjectWithBounds) (threshold : ℚ) (minObjects : Nat) :
    Option DistributionCandidate :=
  let columnCandidates := objects.filter fun obj =>
    rangesOverlap dragged.left dragged.right obj.left obj.right (threshold * 2)
  if columnCandidates.length < minObjects then none
  else
    let sorted := sortByCenterY columnCandidates
    let gaps := (sorted.zip sorted.tail).map fun tb => gapY tb.1 tb.2
    if gaps.length = 0 ∧ sorted.length < 2 then none
    else
      let draggedHeight := dragged.bottom - dragged.top
      let between := (sorted.zip sorted.tail).findSome? fun tb =>
        let currentGap := gapY tb.1 tb.2
        if currentGap < draggedHeight then none
        else
          let insertionGap := (currentGap - draggedHeight) / 2
          if insertionGap < 0 then none
          else
            let newY := tb.1.bottom + insertionGap
            let betweenDist := |dragged.top - newY|
            if betweenDist ≤ threshold then
              let snapped := { dragged with
                top := newY,
                bottom := newY + draggedHeight,
                centerY := newY + draggedHeight / 2 }
              let threeObjects := [tb.1, snapped, tb.2]
              some { position := ⟨dragged.bounds.x, newY⟩
                     info := { pattern := .column
                               objectIds := threeObjects.map (fun o => o.id)
                               spacing := insertionGap
                               gaps := createColumnGaps threeObjects insertionGap }
                     distance := betweenDist
                     score := calculateDistributionScore threeObjects.length
                       betweenDist threshold }
            else none
      match between with
      | some c => some c
      | none =>
        let sortedWithDragged := sortByCenterY (sorted ++ [dragged])
        let draggedIndex :=
          (sortedWithDragged.findIdx? fun o => decide (o.id = dragged.id)).getD 0
        let topNeighbor := if 0 < draggedIndex then
          sortedWithDragged[draggedIndex - 1]? else none
        let bottomNeighbor := if draggedIndex < sortedWithDragged.length - 1 then
          sortedWithDragged[draggedIndex + 1]? else none
        (List.range gaps.length).findSome? fun gapIndex =>
          let existingGap := gaps.getD gapIndex 0
          if existingGap < 0 then none
          else
            let gapTopObj := sorted.getD gapIndex dragged
            let gapBottomObj := sorted.getD (gapIndex + 1) dragged
            let topCheck : Option DistributionCandidate :=
              match topNeighbor with
              | none => none
              | some tn =>
                let gapDiff := |gapY tn dragged - existingGap|
                if gapDiff ≤ threshold ∧ 0 < gapDiff then
                  let idealY := tn.bottom + existingGap
                  let snapDistance := |dragged.top - idealY|
                  let snapped := { dragged with
                    top := idealY,
                    bottom := idealY + draggedHeight,
                    centerY := idealY + draggedHeight / 2 }
                  let newGapCenterX := (tn.centerX + snapped.centerX) / 2
                  let allGaps : List DistributionGap :=
                    [ { start := ⟨newGapCenterX, tn.bottom⟩
                        stop := ⟨newGapCenterX, snapped.top⟩
                        distance := existingGap, axis := .y } ]
                    ++ (if gapTopObj.id ≠ tn.id ∨ gapBottomObj.id ≠ dragged.id then
                        [ { start := ⟨(gapTopObj.centerX + gapBottomObj.centerX) / 2,
                              gapTopObj.bottom⟩
                            stop := ⟨(gapTopObj.centerX + gapBottomObj.centerX) / 2,
                              gapBottomObj.top⟩
                            distance := existingGap, axis := .y } ]
                      else [])
                  some { position := ⟨dragged.bounds.x, idealY⟩
                         info := { pattern := .column
                                   objectIds := [tn.id, dragged.id, gapTopObj.id,
                                     gapBottomObj.id]
                                   spacing := existingGap, gaps := allGaps }
                         distance := snapDistance
                         score := calculateDistributionScore 2 snapDistance threshold }
                else none
            match topCheck with
            | some c => some c
            | none =>
              match bottomNeighbor with
              | none => none
              | some bn =>
                let gapDiff := |gapY dragged bn - existingGap|
                if gapDiff ≤ threshold ∧ 0 < gapDiff then
                  let idealY := bn.top - existingGap - draggedHeight
                  let snapDistance := |dragged.top - idealY|
                  let snapped := { dragged with
                    top := idealY,
                    bottom := idealY + draggedHeight,
                    centerY := idealY + draggedHeight / 2 }
                  let newGapCenterX := (snapped.centerX + bn.centerX) / 2
                  let allGaps : List DistributionGap :=
                    [ { start := ⟨newGapCenterX, snapped.bottom⟩
                        stop := ⟨newGapCenterX, bn.top⟩
                        distance := existingGap, axis := .y } ]
                    ++ (if gapTopObj.id ≠ dragged.id ∨ gapBottomObj.id ≠ bn.id then
                        [ { start := ⟨(gapTopObj.centerX + gapBottomObj.centerX) / 2,
                              gapTopObj.bottom⟩
                            stop := ⟨(gapTopObj.centerX + gapBottomObj.centerX) / 2,
                              gapBottomObj.top⟩
                            distance := existingGap, axis := .y } ]
                      else [])
                  some { position := ⟨dragged.bounds.x, idealY⟩
                         info := { pattern := .column
                                   objectIds := [dragged.id, bn.id, gapTopObj.id,
                                     gapBottomObj.id]
                                   spacing := existingGap, gaps := allGaps }
                         distance := snapDistance
                         score := calculateDistributionScore 2 snapDistance threshold }
                else none

/-- A square-root oracle standing for `Math.sqrt` (transcendental on ℚ); the
staircase detector consumes it for diagonal distances and the pattern
spacing.  Theorems quantify over it. -/
abbrev Sqrt := ℚ → ℚ

/-- `src/snapping/distribution.ts`: `detectStaircaseDistribution`
(`Math.sqrt(x² + y²)` is the oracle applied to `x² + y²`). -/
def detectStaircaseDistribution (S : Sqrt) (dragged : ObjectWithBounds)
    (objects : List ObjectWithBounds) (threshold : ℚ) (minObjects : Nat) :
    Option DistributionCandidate :=
  if objects.length < minObjects then none
  else
    let sorted := sortByCenterX objects
    let deltaXs := (sorted.zip sorted.tail).map fun p => p.2.centerX - p.1.centerX
    let deltaYs := (sorted.zip sorted.tail).map fun p => p.2.centerY - p.1.centerY
    if deltaXs.length = 0 then none
    else
      let avgDeltaX := average deltaXs
      let avgDeltaY := average deltaYs
      if |avgDeltaX| < threshold ∨ |avgDeltaY| < threshold then none
      else if areValuesEqual deltaXs threshold && areValuesEqual deltaYs threshold then
        let staircaseThreshold := threshold * (3/2)
        let first := sorted.getD 0 dragged
        let last := sorted.getD (sorted.length - 1) dragged
        let beforeX := first.centerX - avgDeltaX
        let beforeY := first.centerY - avgDeltaY
        let beforeDist := S ((dragged.centerX - beforeX) ^ 2 +
          (dragged.centerY - beforeY) ^ 2)
        if beforeDist ≤ staircaseThreshold then
          let newX := beforeX - dragged.bounds.width / 2
          let newY := beforeY - dragged.bounds.height / 2
          let newDragged := { dragged with
            left := newX,
            right := newX + dragged.bounds.width,
            top := newY, bottom := newY + dragged.bounds.height,
            centerX := beforeX, centerY := beforeY }
          let allObjects := newDragged :: sorted
          some { position := ⟨newX, newY⟩
                 info := { pattern := .staircase
                           objectIds := allObjects.map (fun o => o.id)
                           spacing := S (avgDeltaX ^ 2 + avgDeltaY ^ 2)
                           gaps := createStaircaseGaps allObjects avgDeltaX avgDeltaY }
                 distance := beforeDist
                 score := calculateDistributionScore allObjects.length
                   beforeDist threshold }
        else
          let afterX := last.centerX + avgDeltaX
          let afterY := last.centerY + avgDeltaY
          let afterDist := S ((dragged.centerX - afterX) ^ 2 +
            (dragged.centerY - afterY) ^ 2)
          if afterDist ≤ staircaseThreshold then
            let newX := afterX - dragged.bounds.width / 2
            let newY := afterY - dragged.bounds.height / 2
            let newDragged := { dragged with
              left := newX,
              right := newX + dragged.bounds.width,
              top := newY, bottom := newY + dragged.bounds.height,
              centerX := afterX, centerY := afterY }
            let allObjects := sorted ++ [newDragged]
            some { position := ⟨newX, newY⟩
                   info := { pattern := .staircase
                             objectIds := allObjects.map (fun o => o.id)
                             spacing := S (avgDeltaX ^ 2 + avgDeltaY ^ 2)
                             gaps := createStaircaseGaps allObjects avgDeltaX avgDeltaY }
                   distance := afterDist
                   score := calculateDistributionScore allObjects.length
                     afterDist threshold }
          else none
      else none

/-- Insertion step of the stable sort of distribution candidates by
descending score. -/
def insertDistByScore (c : DistributionCandidate) :
    List DistributionCandidate → List DistributionCandidate
  | [] => [c]
  | d :: ds => if d.score ≤ c.score then c :: d :: ds
               else d :: insertDistByScore c ds

/-- JS stable `sort((a, b) => b.score - a.score)` on distribution
candidates. -/
def sortDistByScoreDesc : List DistributionCandidate → List DistributionCandidate
  | [] => []
  | c :: cs => insertDistByScore c (sortDistByScoreDesc cs)

/-- `src/snapping/distribution.ts`: `detectDistribution`. -/
def detectDistribution (T : Trig) (S : Sqrt) (draggedBounds : RotatedBounds)
    (draggedId : String) (objects : List SnapSpatialObject)
    (excludeIds : List String) (config : SnapConfiguration) :
    List DistributionCandidate :=
  if config.snapToDistribution then
    let threshold := config.snapThreshold
    let dragged := draggedToBounds T draggedBounds draggedId
    let otherObjects := (objects.filter fun o =>
      if o.id ∈ excludeIds then false else true).map (toObjectWithBounds T)
    if otherObjects.length < 2 then []
    else
      sortDistByScoreDesc
        ((match detectRowDistribution dragged otherObjects threshold 2 with
          | some c => [c] | none => [])
        ++ (match detectColumnDistribution dragged otherObjects threshold 2 with
          | some c => [c] | none => [])
        ++ (match detectStaircaseDistribution S dragged otherObjects threshold 2 with
          | some c => [c] | none => []))
  else []

/-- The default scoring weights of `DEFAULT_SNAP_CONFIG`. -/
def defaultWeights : SnapWeights := ⟨10, 3, 2, 5, 4, 12/10, 1, 8/10, 9/10⟩

/-- Concrete scenario for claim C6: threshold 8, object snapping only. -/
def cfg6 : SnapConfiguration :=
  { enabled := true, snapToGrid := false, snapToObjects := true,
    snapToSizes := false, snapToDistribution := false,
    gridSize := 10, snapThreshold := 8, weights := defaultWeights }

/-- C6 drag context: bounds {97, 50, 100, 80}, grab point (0.5, 0.5). -/
def ctx6 : DragSnapContext :=
  { draggedBounds := ⟨97, 50, 100, 80, 0, none, none⟩, draggedId := "a",
    grabPoint := ⟨1/2, 1/2⟩, movementDirection := ⟨0, 0⟩, velocity := 0,
    delta := ⟨0, 0⟩ }

/-- C6 object set: the dragged object and one other whose left edge is at
x = 100 (placed far away on the y axis so only the x snap fires). -/
def objs6 : List SnapSpatialObject :=
  [ ⟨"a", ⟨97, 50, 100, 80⟩, none, none, none, none⟩,
    ⟨"b", ⟨100, 1000, 500, 80⟩, none, none, none, none⟩ ]

/-- C6 view bounds (far from the scene, so no boundary target is within
threshold). -/
def vb6 : Bounds := ⟨-1000, -1000, 400, 400⟩

/-- The single winning target of the C6 scenario: the other object's left
edge at x = 100. -/
def c6target : SnapTarget :=
  ⟨.edge, .x, 100, some "b", some .left, 10⟩

/-- The single scored candidate of the C6 scenario. -/
def c6cand : ScoredCandidate :=
  scoredCandidateFor ctx6 cfg6 none (dragObjectBoundsMap trigZero objs6) vb6
    (getSnapPoints trigZero ctx6.draggedBounds) c6target 97 SnapEdge.left

/-- C4 counterexample context: dragged bounds {−50, 0, 100, 80}, whose
center-x snap value is exactly 0 (the falsy value). -/
def ctx4 : DragSnapContext :=
  { draggedBounds := ⟨-50, 0, 100, 80, 0, none, none⟩, draggedId := "a",
    grabPoint := ⟨1/2, 1/2⟩, movementDirection := ⟨0, 0⟩, velocity := 0,
    delta := ⟨0, 0⟩ }

/-- C4 counterexample objects: one other object whose center-x is 0. -/
def objs4 : List SnapSpatialObject :=
  [ ⟨"a", ⟨-50, 0, 100, 80⟩, none, none, none, none⟩,
    ⟨"b", ⟨-300, 300, 600, 80⟩, none, none, none, none⟩ ]

/-- C4 counterexample view bounds (far away). -/
def vb4 : Bounds := ⟨1000, 1000, 400, 400⟩

/-- The winning target of the C4 counterexample: the other object's center at
x = 0. -/
def c4target : SnapTarget :=
  ⟨.center, .x, 0, some "b", some .centerX, 8⟩

/-- The winning candidate of the C4 counterexample. -/
def c4cand : ScoredCandidate :=
  scoredCandidateFor ctx4 cfg6 none (dragObjectBoundsMap trigZero objs4) vb4
    (getSnapPoints trigZero ctx4.draggedBounds) c4target 0 SnapEdge.centerX

/-- C4/C5 witness context: dragged bounds {10, 10, 100, 80}. -/
def ctxW : DragSnapContext :=
  { draggedBounds := ⟨10, 10, 100, 80, 0, none, none⟩, draggedId := "a",
    grabPoint := ⟨1/2, 1/2⟩, movementDirection := ⟨0, 0⟩, velocity := 0,
    delta := ⟨0, 0⟩ }

/-- C4/C5 witness objects: one other object with left edge at x = 13. -/
def objsW : List SnapSpatialObject :=
  [ ⟨"a", ⟨10, 10, 100, 80⟩, none, none, none, none⟩,
    ⟨"b", ⟨13, 500, 1000, 40⟩, none, none, none, none⟩ ]

/-- C4/C5 witness view bounds (far away). -/
def vbW : Bounds := ⟨2000, 2000, 100, 100⟩

/-- The witness target: the other object's left edge at x = 13. -/
def cWtarget : SnapTarget :=
  ⟨.edge, .x, 13, some "b", some .left, 10⟩

/-- The witness candidate (drag value 10 ≠ 0). -/
def cWcand : ScoredCandidate :=
  scoredCandidateFor ctxW cfg6 none (dragObjectBoundsMap trigZero objsW) vbW
    (getSnapPoints trigZero ctxW.draggedBounds) cWtarget 10 SnapEdge.left

/-- C9 counterexample configuration: `snapThreshold = 0`. -/
def cfg9 : SnapConfiguration :=
  { enabled := true, snapToGrid := false, snapToObjects := true,
    snapToSizes := false, snapToDistribution := false,
    gridSize := 10, snapThreshold := 0, weights := defaultWeights }

/-- C9 counterexample context: dragged bounds {10, 10, 100, 80}. -/
def ctx9 : DragSnapContext :=
  { draggedBounds := ⟨10, 10, 100, 80, 0, none, none⟩, draggedId := "a",
    grabPoint := ⟨1/2, 1/2⟩, movementDirection := ⟨0, 0⟩, velocity := 0,
    delta := ⟨0, 0⟩ }

/-- C9 counterexample objects: one other object exactly aligned on the left
edge (x = 10). -/
def objs9 : List SnapSpatialObject :=
  [ ⟨"a", ⟨10, 10, 100, 80⟩, none, none, none, none⟩,
    ⟨"b", ⟨10, 500, 77, 30⟩, none, none, none, none⟩ ]

/-- C9 counterexample view bounds (far away). -/
def vb9 : Bounds := ⟨2000, 2000, 100, 100⟩

/-- C9 witness: `enabled = false` configuration. -/
def cfgDisabled : SnapConfiguration :=
  { enabled := false, snapToGrid := false, snapToObjects := true,
    snapToSizes := false, snapToDistribution := false,
    gridSize := 10, snapThreshold := 8, weights := defaultWeights }

/-- C9 witness: negative-threshold configuration. -/
def cfgNegThreshold : SnapConfiguration :=
  { enabled := true, snapToGrid := false, snapToObjects := true,
    snapToSizes := false, snapToDistribution := false,
    gridSize := 10, snapThreshold := -1, weights := defaultWeights }

/-- C8 counterexample context: dragged bounds {97, 0, 100, 80}. -/
def ctx8 : DragSnapContext :=
  { draggedBounds := ⟨97, 0, 100, 80, 0, none, none⟩, draggedId := "a",
    grabPoint := ⟨1/2, 1/2⟩, movementDirection := ⟨0, 0⟩, velocity := 0,
    delta := ⟨0, 0⟩ }

/-- The C8 far object: left edge at x = 100 (3 px from the dragged left
edge) but 100 000 px away on the y axis — far beyond `snapThreshold × 200`. -/
def farObj : SnapSpatialObject := ⟨"far", ⟨100, 100000, 500, 50⟩, none, none, none, none⟩

/-- C8 counterexample objects. -/
def objs8 : List SnapSpatialObject :=
  [ ⟨"a", ⟨97, 0, 100, 80⟩, none, none, none, none⟩, farObj ]

/-- C8 counterexample view bounds (far away). -/
def vb8 : Bounds := ⟨-1000, -1000, 400, 400⟩

/-- Concrete scenario for claim C7: three 50-wide objects at x = 0, 150, 300
in one row, a fourth 50-wide object dragged to x = 447 (near 450). -/
def objs7 : List SnapSpatialObject :=
  [ ⟨"A", ⟨0, 0, 50, 50⟩, none, none, none, none⟩,
    ⟨"B", ⟨150, 0, 50, 50⟩, none, none, none, none⟩,
    ⟨"C", ⟨300, 0, 50, 50⟩, none, none, none, none⟩,
    ⟨"d", ⟨447, 0, 50, 50⟩, none, none, none, none⟩ ]

/-- The C7 dragged bounds (x = 447, 3 px left of the exact slot 450). -/
def dragged7 : RotatedBounds := ⟨447, 0, 50, 50, 0, none, none⟩

/-- C7 configuration: distribution snapping on, threshold 8. -/
def cfg7 : SnapConfiguration :=
  { enabled := true, snapToGrid := false, snapToObjects := true,
    snapToSizes := false, snapToDistribution := true,
    gridSize := 10, snapThreshold := 8, weights := defaultWeights }

/-- A square-root oracle for scenarios whose staircase branch is never
reached (its values are irrelevant there). -/
def sqrtZero : Sqrt := fun _ => 0

end SvgCanvas

namespace SvgCanvas

/-- `List.foldl min` is a lower bound for its seed and every element. -/
theorem foldl_min_le (l : List ℚ) : ∀ (a v : ℚ), (v = a ∨ v ∈ l) → l.foldl min a ≤ v := by
  induction l with
  | nil =>
    intro a v h
    rcases h with rfl | h
    · exact le_refl _
    · cases h
  | cons b t ih =>
    intro a v h
    have hbase : t.foldl min (min a b) ≤ min a b := ih (min a b) (min a b) (Or.inl rfl)
    rcases h with rfl | h
    · exact le_trans hbase (min_le_left _ _)
    · rcases List.mem_cons.mp h with rfl | h
      · exact le_trans hbase (min_le_right _ _)
      · exact ih (min a b) v (Or.inr h)

/-- `List.foldl min` is attained: it equals the seed or some element. -/
theorem foldl_min_mem (l : List ℚ) : ∀ a : ℚ, l.foldl min a = a ∨ l.foldl min a ∈ l := by
  induction l with
  | nil => intro a; exact Or.inl rfl
  | cons b t ih =>
    intro a
    rcases ih (min a b) with h | h
    · rcases min_choice a b with hab | hab
      · exact Or.inl (by rw [List.foldl_cons, h, hab])
      · refine Or.inr ?_
        rw [List.foldl_cons, h, hab]
        exact List.mem_cons_self _ _
    · exact Or.inr (List.mem_cons_of_mem _ h)

/-- `List.foldl max` is an upper bound for its seed and every element. -/
theorem le_foldl_max (l : List ℚ) : ∀ (a v : ℚ), (v = a ∨ v ∈ l) → v ≤ l.foldl max a := by
  induction l with
  | nil =>
    intro a v h
    rcases h with rfl | h
    · exact le_refl _
    · cases h
  | cons b t ih =>
    intro a v h
    have hbase : max a b ≤ t.foldl max (max a b) := ih (max a b) (max a b) (Or.inl rfl)
    rcases h with rfl | h
    · exact le_trans (le_max_left _ _) hbase
    · rcases List.mem_cons.mp h with rfl | h
      · exact le_trans (le_max_right _ _) hbase
      · exact ih (max a b) v (Or.inr h)

/-- `List.foldl max` is attained: it equals the seed or some element. -/
theorem foldl_max_mem (l : List ℚ) : ∀ a : ℚ, l.foldl max a = a ∨ l.foldl max a ∈ l := by
  induction l with
  | nil => intro a; exact Or.inl rfl
  | cons b t ih =>
    intro a
    rcases ih (max a b) with h | h
    · rcases max_choice a b with hab | hab
      · exact Or.inl (by rw [List.foldl_cons, h, hab])
      · refine Or.inr ?_
        rw [List.foldl_cons, h, hab]
        exact List.mem_cons_self _ _
    · exact Or.inr (List.mem_cons_of_mem _ h)

/-- `listMinQ` bounds every element of a nonempty list from below. -/
theorem listMinQ_le {l : List ℚ} {v : ℚ} (h : v ∈ l) : listMinQ l ≤ v := by
  cases l with
  | nil => cases h
  | cons a t =>
    rcases List.mem_cons.mp h with rfl | h
    · exact foldl_min_le t _ _ (Or.inl rfl)
    · exact foldl_min_le t _ v (Or.inr h)

/-- `listMinQ` of a nonempty list is one of its elements. -/
theorem listMinQ_mem {l : List ℚ} (h : l ≠ []) : listMinQ l ∈ l := by
  cases l with
  | nil => exact absurd rfl h
  | cons a t =>
    rcases foldl_min_mem t a with h' | h'
    · rw [listMinQ, h']
      exact List.mem_cons_self _ _
    · exact List.mem_cons_of_mem _ h'

/-- `listMaxQ` bounds every element of a nonempty list from above. -/
theorem le_listMaxQ {l : List ℚ} {v : ℚ} (h : v ∈ l) : v ≤ listMaxQ l := by
  cases l with
  | nil => cases h
  | cons a t =>
    rcases List.mem_cons.mp h with rfl | h
    · exact le_foldl_max t _ _ (Or.inl rfl)
    · exact le_foldl_max t _ v (Or.inr h)

/-- `listMaxQ` of a nonempty list is one of its elements. -/
theorem listMaxQ_mem {l : List ℚ} (h : l ≠ []) : listMaxQ l ∈ l := by
  cases l with
  | nil => exact absurd rfl h
  | cons a t =>
    rcases foldl_max_mem t a with h' | h'
    · rw [listMaxQ, h']
      exact List.mem_cons_self _ _
    · exact List.mem_cons_of_mem _ h'

/-- `getRotatedCorners` always returns a (four-element, hence nonempty) list. -/
theorem getRotatedCorners_ne_nil (T : Trig) (bounds : RotatedBounds) :
    getRotatedCorners T bounds ≠ [] := by
  simp only [getRotatedCorners]
  split <;> simp

/-- Algebraic core of the anchor-preservation property: the position solved by
`calculateResizedPosition` puts the rotated anchor of the resized bounds back
at `anchorScreenPos`, for any width/height. -/
theorem getRotatedAnchorPosition_calculateResizedPosition
    (w h : ℚ) (anchor pivot anchorScreenPos : Point) (m : RotationMatrix) :
    getRotatedAnchorPosition
      { x := (calculateResizedPosition w h anchor pivot anchorScreenPos m).x
        y := (calculateResizedPosition w h anchor pivot anchorScreenPos m).y
        width := w, height := h } anchor pivot m = anchorScreenPos := by
  simp only [getRotatedAnchorPosition, calculateResizedPosition]
  cases anchorScreenPos
  refine congrArg₂ Point.mk ?_ ?_ <;> ring

/-- Claim C2: for every resize state produced by `initResizeState` and every
pointer position (with or without an aspect-ratio constraint and for all
minimum sizes), the bounds returned by `calculateResizeBounds` place the
anchor, rotated about the new bounds' pivot with the same rotation matrix,
exactly at the anchor's original screen position captured at resize start. -/
theorem calculateResizeBounds_preserves_anchor
    (T : Trig) (startPoint : Point) (handle : ResizeHandle) (bounds : Bounds)
    (pivot : Point) (rotation : ℚ) (currentPoint : Point)
    (minWidth minHeight : ℚ) (aspect : Option ℚ) :
    getRotatedAnchorPosition
      (calculateResizeBounds (initResizeState T startPoint handle bounds pivot rotation)
        currentPoint minWidth minHeight aspect)
      (getAnchorForHandle handle) pivot (createRotationMatrix T rotation)
    = getRotatedAnchorPosition bounds (getAnchorForHandle handle) pivot
        (createRotationMatrix T rotation) := by
  simp only [calculateResizeBounds, initResizeState]
  exact getRotatedAnchorPosition_calculateResizedPosition _ _ _ _ _ _

/-- Claim C10 counterexample: with a negative aspect-ratio constraint (−1),
`calculateResizeBounds` returns height −10, violating `height ≥ minHeight`
for `minHeight = 10` (handle `e`, rotation 0, original bounds 10×10, pointer
dragged 5 to the left). -/
theorem calculateResizeBounds_min_size_fails_for_negative_aspect :
    (calculateResizeBounds
        (initResizeState trigZero ⟨0, 0⟩ ResizeHandle.e ⟨0, 0, 10, 10⟩ ⟨0, 0⟩ 0)
        ⟨-5, 0⟩ 10 10 (some (-1))).height = -10 ∧
    ¬ (10 : ℚ) ≤ (calculateResizeBounds
        (initResizeState trigZero ⟨0, 0⟩ ResizeHandle.e ⟨0, 0, 10, 10⟩ ⟨0, 0⟩ 0)
        ⟨-5, 0⟩ 10 10 (some (-1))).height := by
  constructor <;>
    norm_num [calculateResizeBounds, initResizeState, createRotationMatrix,
      unrotateDeltaWithMatrix, calculateResizedDimensions, getDriverDimension,
      cornerDriver, calculateResizedPosition, trigZero]

/-- Claim C10 (amended): `resizeBounds` always returns `width ≥ minWidth` and
`height ≥ minHeight`; `calculateResizeBounds` does so as well provided the
optional aspect-ratio constraint, when present, is positive (the
counterexample shows the bound fails for a negative ratio). -/
theorem resize_bounds_respect_min_size
    (originalBounds : Bounds) (handle : ResizeHandle) (deltaX deltaY : ℚ)
    (state : ResizeState) (currentPoint : Point)
    (minWidth minHeight : ℚ) (aspect : Option ℚ)
    (hW : 0 < minWidth) (hH : 0 < minHeight)
    (ha : aspect = none ∨ ∃ a, aspect = some a ∧ 0 < a) :
    (minWidth ≤ (resizeBounds originalBounds handle deltaX deltaY minWidth minHeight).width ∧
     minHeight ≤ (resizeBounds originalBounds handle deltaX deltaY minWidth minHeight).height) ∧
    (minWidth ≤ (calculateResizeBounds state currentPoint minWidth minHeight aspect).width ∧
     minHeight ≤ (calculateResizeBounds state currentPoint minWidth minHeight aspect).height) := by
  constructor
  · constructor
    · simp only [resizeBounds]
      split <;> linarith
    · simp only [resizeBounds]
      split <;> linarith
  · rcases ha with rfl | ⟨a, rfl, hapos⟩
    · simp only [calculateResizeBounds]
      exact ⟨le_max_right _ _, le_max_right _ _⟩
    · simp only [calculateResizeBounds]
      constructor
      · split
        · split
          · exact le_refl _
          · rename_i h2
            push_neg at h2
            show minWidth ≤ minHeight * a
            linarith
        · rename_i h1
          push_neg at h1
          exact h1.1
      · split
        · split
          · rename_i h2
            show minHeight ≤ minWidth / a
            rw [le_div_iff₀ hapos]
            linarith
          · exact le_refl _
        · rename_i h1
          push_neg at h1
          exact h1.2

/-- Claim C10 witness: the amended theorem instantiated at handle `se` with
deltas (−100, −100), minima (5, 5), and a concrete aspect-free resize. -/
theorem resize_bounds_respect_min_size_witness :
    ((5 : ℚ) ≤ (resizeBounds ⟨0, 0, 30, 30⟩ ResizeHandle.se (-100) (-100) 5 5).width ∧
     (5 : ℚ) ≤ (resizeBounds ⟨0, 0, 30, 30⟩ ResizeHandle.se (-100) (-100) 5 5).height) ∧
    ((5 : ℚ) ≤ (calculateResizeBounds
        (initResizeState trigZero ⟨0, 0⟩ ResizeHandle.se ⟨0, 0, 30, 30⟩ ⟨0, 0⟩ 0)
        ⟨-100, -100⟩ 5 5 none).width ∧
     (5 : ℚ) ≤ (calculateResizeBounds
        (initResizeState trigZero ⟨0, 0⟩ ResizeHandle.se ⟨0, 0, 30, 30⟩ ⟨0, 0⟩ 0)
        ⟨-100, -100⟩ 5 5 none).height) :=
  resize_bounds_respect_min_size ⟨0, 0, 30, 30⟩ ResizeHandle.se (-100) (-100)
    (initResizeState trigZero ⟨0, 0⟩ ResizeHandle.se ⟨0, 0, 30, 30⟩ ⟨0, 0⟩ 0)
    ⟨-100, -100⟩ 5 5 none (by norm_num) (by norm_num) (Or.inl rfl)

/-- Claim C2 has no hypotheses, but the concrete instance from the spec is
still recorded: handle `se`, any 30°-matrix, pivots (0.5, 0.5) and (0.2, 0.8),
a drag that doubles the width — the `nw` corner (the anchor of `se`) stays at
its original screen position.  This follows by instantiating the theorem. -/
theorem calculateResizeBounds_preserves_anchor_instance :
    getRotatedAnchorPosition
      (calculateResizeBounds
        (initResizeState trigZero ⟨130, 80⟩ ResizeHandle.se ⟨30, 40, 100, 80⟩ ⟨1/5, 4/5⟩ 0)
        ⟨230, 80⟩ 10 10 none)
      (getAnchorForHandle ResizeHandle.se) ⟨1/5, 4/5⟩ (createRotationMatrix trigZero 0)
    = getRotatedAnchorPosition ⟨30, 40, 100, 80⟩ (getAnchorForHandle ResizeHandle.se)
        ⟨1/5, 4/5⟩ (createRotationMatrix trigZero 0) :=
  calculateResizeBounds_preserves_anchor trigZero ⟨130, 80⟩ ResizeHandle.se
    ⟨30, 40, 100, 80⟩ ⟨1/5, 4/5⟩ 0 ⟨230, 80⟩ 10 10 none

/-- Claim C1: with bounds 100×80 at the origin, rotation 0, and a pivot move
from (0.5, 0.5) to (0, 0), `calculatePivotCompensation` returns (50, 40); the
rendered top-left corner of the compensated object is (50, 40), not the (0, 0)
of the original rendering, and the returned compensation differs from the
`(I - R(θ))·(w·Δx, h·Δy)` closed form, which gives (0, 0) at θ = 0.  This
refutes the claim for θ = 0 (the code's zero-rotation branch returns the raw
translation instead of the zero vector the claimed invariance requires). -/
theorem calculatePivotCompensation_zero_rotation_shifts_object :
    calculatePivotCompensation trigZero ⟨1/2, 1/2⟩ ⟨0, 0⟩ ⟨0, 0, 100, 80⟩ 0 = ⟨50, 40⟩ ∧
    renderedPoint trigZero ⟨50, 40, 100, 80⟩ 0 0 0 ⟨50, 40⟩ ≠
      renderedPoint trigZero ⟨0, 0, 100, 80⟩ (1/2) (1/2) 0 ⟨0, 0⟩ ∧
    calculatePivotCompensation trigZero ⟨1/2, 1/2⟩ ⟨0, 0⟩ ⟨0, 0, 100, 80⟩ 0 ≠
      specPivotCompensation (trigZero 0).1 (trigZero 0).2
        ⟨100 * (1/2 - 0), 80 * (1/2 - 0)⟩ := by
  refine ⟨?_, ?_, ?_⟩ <;>
    norm_num [calculatePivotCompensation, renderedPoint, rotatePointAroundCenter,
      getPivotPosition, specPivotCompensation, trigZero, Point.mk.injEq]

/-- Claim C3: for every `RotatedBounds` with nonzero rotation (and any
trigonometric table), the snap points returned by `getSnapPoints` bound all
four rotated corners, each of left/right/top/bottom is attained by some
rotated corner (the AABB is tightest), and `centerX`/`centerY` are the
midpoints of `[left, right]` and `[top, bottom]`. -/
theorem getSnapPoints_aabb_contains_and_tight (T : Trig) (bounds : RotatedBounds)
    (hrot : bounds.rotation ≠ 0) :
    (∀ p ∈ getRotatedCorners T bounds,
        (getSnapPoints T bounds).left ≤ p.x ∧ p.x ≤ (getSnapPoints T bounds).right ∧
        (getSnapPoints T bounds).top ≤ p.y ∧ p.y ≤ (getSnapPoints T bounds).bottom) ∧
    (∃ p ∈ getRotatedCorners T bounds, p.x = (getSnapPoints T bounds).left) ∧
    (∃ p ∈ getRotatedCorners T bounds, p.x = (getSnapPoints T bounds).right) ∧
    (∃ p ∈ getRotatedCorners T bounds, p.y = (getSnapPoints T bounds).top) ∧
    (∃ p ∈ getRotatedCorners T bounds, p.y = (getSnapPoints T bounds).bottom) ∧
    (getSnapPoints T bounds).centerX
      = ((getSnapPoints T bounds).left + (getSnapPoints T bounds).right) / 2 ∧
    (getSnapPoints T bounds).centerY
      = ((getSnapPoints T bounds).top + (getSnapPoints T bounds).bottom) / 2 := by
  have hsp : getSnapPoints T bounds = getRotatedSnapPoints T bounds := if_pos hrot
  rw [hsp]
  simp only [getRotatedSnapPoints]
  have hne := getRotatedCorners_ne_nil T bounds
  refine ⟨?_, ?_, ?_, ?_, ?_, by trivial, by trivial⟩
  · intro p hp
    exact ⟨listMinQ_le (List.mem_map_of_mem Point.x hp),
      le_listMaxQ (List.mem_map_of_mem Point.x hp),
      listMinQ_le (List.mem_map_of_mem Point.y hp),
      le_listMaxQ (List.mem_map_of_mem Point.y hp)⟩
  · have hmem := listMinQ_mem (l := (getRotatedCorners T bounds).map Point.x)
      (by simpa using hne)
    rcases List.mem_map.mp hmem with ⟨p, hp, hpx⟩
    exact ⟨p, hp, hpx⟩
  · have hmem := listMaxQ_mem (l := (getRotatedCorners T bounds).map Point.x)
      (by simpa using hne)
    rcases List.mem_map.mp hmem with ⟨p, hp, hpx⟩
    exact ⟨p, hp, hpx⟩
  · have hmem := listMinQ_mem (l := (getRotatedCorners T bounds).map Point.y)
      (by simpa using hne)
    rcases List.mem_map.mp hmem with ⟨p, hp, hpy⟩
    exact ⟨p, hp, hpy⟩
  · have hmem := listMaxQ_mem (l := (getRotatedCorners T bounds).map Point.y)
      (by simpa using hne)
    rcases List.mem_map.mp hmem with ⟨p, hp, hpy⟩
    exact ⟨p, hp, hpy⟩

/-- Claim C3 witness: the theorem applied at a 90°-rotated 4×2 box (table
exact at 90°: cos = 0, sin = 1); the midpoint equalities are the binder-free
part of the conclusion. -/
theorem getSnapPoints_aabb_contains_and_tight_witness :
    (getSnapPoints (fun _ => ((0 : ℚ), (1 : ℚ))) ⟨0, 0, 4, 2, 90, none, none⟩).centerX
      = ((getSnapPoints (fun _ => ((0 : ℚ), (1 : ℚ))) ⟨0, 0, 4, 2, 90, none, none⟩).left
          + (getSnapPoints (fun _ => ((0 : ℚ), (1 : ℚ))) ⟨0, 0, 4, 2, 90, none, none⟩).right) / 2 ∧
    (getSnapPoints (fun _ => ((0 : ℚ), (1 : ℚ))) ⟨0, 0, 4, 2, 90, none, none⟩).centerY
      = ((getSnapPoints (fun _ => ((0 : ℚ), (1 : ℚ))) ⟨0, 0, 4, 2, 90, none, none⟩).top
          + (getSnapPoints (fun _ => ((0 : ℚ), (1 : ℚ))) ⟨0, 0, 4, 2, 90, none, none⟩).bottom) / 2 :=
  ⟨(getSnapPoints_aabb_contains_and_tight (fun _ => ((0 : ℚ), (1 : ℚ)))
      ⟨0, 0, 4, 2, 90, none, none⟩ (by norm_num)).2.2.2.2.2.1,
   (getSnapPoints_aabb_contains_and_tight (fun _ => ((0 : ℚ), (1 : ℚ)))
      ⟨0, 0, 4, 2, 90, none, none⟩ (by norm_num)).2.2.2.2.2.2⟩

/-- Membership through the stable-insert step. -/
theorem mem_insertByScore {c a : ScoredCandidate} {l : List ScoredCandidate} :
    c ∈ insertByScore a l ↔ c = a ∨ c ∈ l := by
  induction l with
  | nil => simp [insertByScore]
  | cons d ds ih =>
    simp only [insertByScore]
    split
    · simp [List.mem_cons]
    · simp only [List.mem_cons, ih]
      tauto

/-- The stable sort by descending score does not change membership. -/
theorem mem_sortByScoreDesc {c : ScoredCandidate} {l : List ScoredCandidate} :
    c ∈ sortByScoreDesc l ↔ c ∈ l := by
  induction l with
  | nil => simp [sortByScoreDesc]
  | cons a t ih => simp [sortByScoreDesc, mem_insertByScore, ih]

/-- `scoredCandidateFor` records the target it was built from. -/
theorem scoredCandidateFor_target (context : DragSnapContext)
    (config : SnapConfiguration) (getParent : Option (String → Option String))
    (objectBoundsMap : List (String × Bounds)) (viewBounds : Bounds)
    (draggedSnapPoints : SnapPoints) (target : SnapTarget)
    (dragValue : ℚ) (dragEdge : SnapEdge) :
    (scoredCandidateFor context config getParent objectBoundsMap viewBounds
      draggedSnapPoints target dragValue dragEdge).target = target := rfl

/-- `scoredCandidateFor` records the drag edge it was built from. -/
theorem scoredCandidateFor_dragSnapEdge (context : DragSnapContext)
    (config : SnapConfiguration) (getParent : Option (String → Option String))
    (objectBoundsMap : List (String × Bounds)) (viewBounds : Bounds)
    (draggedSnapPoints : SnapPoints) (target : SnapTarget)
    (dragValue : ℚ) (dragEdge : SnapEdge) :
    (scoredCandidateFor context config getParent objectBoundsMap viewBounds
      draggedSnapPoints target dragValue dragEdge).dragSnapEdge = dragEdge := rfl

/-- In `getDragSnapValuesForAxis` the edge tag determines the value: the four
possible entries carry pairwise distinct edges. -/
theorem dragSnapValue_unique (sp : SnapPoints) (axis : SnapAxis) {v v' : ℚ}
    {e : SnapEdge} (h : (v, e) ∈ getDragSnapValuesForAxis sp axis)
    (h' : (v', e) ∈ getDragSnapValuesForAxis sp axis) : v = v' := by
  cases axis with
  | x =>
    rcases eq_or_ne sp.pivotX sp.centerX with hp | hp
    · simp only [getDragSnapValuesForAxis] at h h'
      rw [if_neg (not_not_intro hp)] at h h'
      simp only [List.append_nil, List.mem_cons, List.not_mem_nil, or_false,
        Prod.mk.injEq] at h h'
      rcases h with ⟨rfl, rfl⟩ | ⟨rfl, rfl⟩ | ⟨rfl, rfl⟩ <;> simp_all
    · simp only [getDragSnapValuesForAxis] at h h'
      rw [if_pos hp] at h h'
      simp only [List.mem_append, List.mem_cons, List.mem_singleton,
        List.not_mem_nil, or_false, Prod.mk.injEq] at h h'
      rcases h with (⟨rfl, rfl⟩ | ⟨rfl, rfl⟩ | ⟨rfl, rfl⟩) | ⟨rfl, rfl⟩ <;> simp_all
  | y =>
    rcases eq_or_ne sp.pivotY sp.centerY with hp | hp
    · simp only [getDragSnapValuesForAxis] at h h'
      rw [if_neg (not_not_intro hp)] at h h'
      simp only [List.append_nil, List.mem_cons, List.not_mem_nil, or_false,
        Prod.mk.injEq] at h h'
      rcases h with ⟨rfl, rfl⟩ | ⟨rfl, rfl⟩ | ⟨rfl, rfl⟩ <;> simp_all
    · simp only [getDragSnapValuesForAxis] at h h'
      rw [if_pos hp] at h h'
      simp only [List.mem_append, List.mem_cons, List.mem_singleton,
        List.not_mem_nil, or_false, Prod.mk.injEq] at h h'
      rcases h with (⟨rfl, rfl⟩ | ⟨rfl, rfl⟩ | ⟨rfl, rfl⟩) | ⟨rfl, rfl⟩ <;> simp_all

/-- `find?` over the drag snap values retrieves exactly the value paired with
the searched edge. -/
theorem find?_dragSnapValue (sp : SnapPoints) (axis : SnapAxis) {v : ℚ}
    {e : SnapEdge} (h : (v, e) ∈ getDragSnapValuesForAxis sp axis) :
    ((getDragSnapValuesForAxis sp axis).find? (fun p => decide (p.2 = e))).map
      Prod.fst = some v := by
  cases axis with
  | x =>
    rcases eq_or_ne sp.pivotX sp.centerX with hp | hp
    · simp only [getDragSnapValuesForAxis] at h ⊢
      rw [if_neg (not_not_intro hp)] at h ⊢
      simp only [List.append_nil, List.mem_cons, List.not_mem_nil, or_false,
        Prod.mk.injEq] at h
      rcases h with ⟨rfl, rfl⟩ | ⟨rfl, rfl⟩ | ⟨rfl, rfl⟩ <;> simp [List.find?]
    · simp only [getDragSnapValuesForAxis] at h ⊢
      rw [if_pos hp] at h ⊢
      simp only [List.mem_append, List.mem_cons, List.mem_singleton,
        List.not_mem_nil, or_false, Prod.mk.injEq] at h
      rcases h with (⟨rfl, rfl⟩ | ⟨rfl, rfl⟩ | ⟨rfl, rfl⟩) | ⟨rfl, rfl⟩ <;>
        simp [List.find?]
  | y =>
    rcases eq_or_ne sp.pivotY sp.centerY with hp | hp
    · simp only [getDragSnapValuesForAxis] at h ⊢
      rw [if_neg (not_not_intro hp)] at h ⊢
      simp only [List.append_nil, List.mem_cons, List.not_mem_nil, or_false,
        Prod.mk.injEq] at h
      rcases h with ⟨rfl, rfl⟩ | ⟨rfl, rfl⟩ | ⟨rfl, rfl⟩ <;> simp [List.find?]
    · simp only [getDragSnapValuesForAxis] at h ⊢
      rw [if_pos hp] at h ⊢
      simp only [List.mem_append, List.mem_cons, List.mem_singleton,
        List.not_mem_nil, or_false, Prod.mk.injEq] at h
      rcases h with (⟨rfl, rfl⟩ | ⟨rfl, rfl⟩ | ⟨rfl, rfl⟩) | ⟨rfl, rfl⟩ <;>
        simp [List.find?]

/-- Characterization of membership in the per-axis candidate bucket. -/
theorem mem_axisCandidates {context : DragSnapContext} {config : SnapConfiguration}
    {getParent : Option (String → Option String)}
    {obm : List (String × Bounds)} {viewBounds : Bounds} {sp : SnapPoints}
    {targets : List SnapTarget} {axis : SnapAxis} {c : ScoredCandidate} :
    c ∈ axisCandidates context config getParent obm viewBounds sp targets axis ↔
      ∃ t ∈ targets, t.axis = axis ∧
        ∃ ve ∈ getDragSnapValuesForAxis sp t.axis,
          |ve.1 - t.value| ≤ config.snapThreshold ∧
          c = scoredCandidateFor context config getParent obm viewBounds sp t ve.1 ve.2 := by
  simp only [axisCandidates, List.mem_flatMap]
  constructor
  · rintro ⟨t, ht, hc⟩
    by_cases haxis : t.axis = axis
    · rw [if_pos haxis] at hc
      rcases List.mem_filterMap.mp hc with ⟨ve, hve, heq⟩
      by_cases hd : |ve.1 - t.value| ≤ config.snapThreshold
      · rw [if_pos hd] at heq
        exact ⟨t, ht, haxis, ve, hve, hd, (Option.some.inj heq).symm⟩
      · rw [if_neg hd] at heq
        cases heq
    · rw [if_neg haxis] at hc
      cases hc
  · rintro ⟨t, ht, haxis, ve, hve, hd, rfl⟩
    refine ⟨t, ht, ?_⟩
    rw [if_pos haxis]
    exact List.mem_filterMap.mpr ⟨ve, hve, by rw [if_pos hd]⟩

/-- Claim C5: inside `computeSnap` (with snapping enabled), a target/drag-edge
pair becomes a scored candidate exactly when the axis-separated distance
`|dragValue − target.value|` is at most `snapThreshold`: distance exactly at
the threshold is accepted, any strictly greater distance is excluded. -/
theorem computeSnap_candidate_iff_within_threshold
    (T : Trig) (context : DragSnapContext) (objects : List SnapSpatialObject)
    (viewBounds : Bounds) (config : SnapConfiguration)
    (getParent : Option (String → Option String))
    (henabled : config.enabled = true)
    (t : SnapTarget) (ht : t ∈ dragTargets T context objects viewBounds config)
    (v : ℚ) (e : SnapEdge)
    (hve : (v, e) ∈ getDragSnapValuesForAxis (getSnapPoints T context.draggedBounds) t.axis) :
    (∃ c ∈ (computeSnap T context objects viewBounds config getParent).candidates,
        c.target = t ∧ c.dragSnapEdge = e)
      ↔ |v - t.value| ≤ config.snapThreshold := by
  have hcands : (computeSnap T context objects viewBounds config getParent).candidates
      = sortByScoreDesc
          (dragCandidates T context objects viewBounds config getParent SnapAxis.x
            ++ dragCandidates T context objects viewBounds config getParent SnapAxis.y) := by
    simp [computeSnap, henabled]
  constructor
  · rintro ⟨c, hc, hct, hce⟩
    rw [hcands, mem_sortByScoreDesc, List.mem_append] at hc
    have hc' : ∃ ax, c ∈ dragCandidates T context objects viewBounds config getParent ax := by
      rcases hc with hc | hc
      · exact ⟨SnapAxis.x, hc⟩
      · exact ⟨SnapAxis.y, hc⟩
    rcases hc' with ⟨ax, hc⟩
    rw [dragCandidates, mem_axisCandidates] at hc
    rcases hc with ⟨t', ht', haxis', ⟨veV, veE⟩, hve', hd, rfl⟩
    rw [scoredCandidateFor_target] at hct
    rw [scoredCandidateFor_dragSnapEdge] at hce
    rw [← hct] at hve ⊢
    rw [← hce] at hve
    rw [dragSnapValue_unique (getSnapPoints T context.draggedBounds) t'.axis hve hve']
    exact hd
  · intro hdist
    refine ⟨scoredCandidateFor context config getParent (dragObjectBoundsMap T objects)
      viewBounds (getSnapPoints T context.draggedBounds) t v e, ?_, rfl, rfl⟩
    rw [hcands, mem_sortByScoreDesc, List.mem_append]
    cases haxis : t.axis with
    | x =>
      refine Or.inl ?_
      rw [dragCandidates, mem_axisCandidates]
      exact ⟨t, ht, haxis, (v, e), hve, hdist, rfl⟩
    | y =>
      refine Or.inr ?_
      rw [dragCandidates, mem_axisCandidates]
      exact ⟨t, ht, haxis, (v, e), hve, hdist, rfl⟩

/-- Claim C4 (amended): whenever `computeSnap` selects a winning candidate on
an axis, the snapped coordinate on that axis is the exact offset
`draggedBounds.origin + (target.value − v)`, where `v` is the dragged
object's snap value for the winning drag edge — provided `v ≠ 0`; a value of
exactly 0 is falsy in the source's `|| snapPoints.left` / `|| snapPoints.top`
fallback, which then substitutes the left/top snap value instead. -/
theorem computeSnap_snapped_offset_exact
    (T : Trig) (context : DragSnapContext) (objects : List SnapSpatialObject)
    (viewBounds : Bounds) (config : SnapConfiguration)
    (getParent : Option (String → Option String))
    (henabled : config.enabled = true) :
    (∀ c v, bestDragCandidate T context objects viewBounds config getParent SnapAxis.x = some c →
      (v, c.dragSnapEdge) ∈ getDragSnapValuesForAxis (getSnapPoints T context.draggedBounds) SnapAxis.x →
      v ≠ 0 →
      (computeSnap T context objects viewBounds config getParent).snappedPosition.x
        = context.draggedBounds.x + (c.target.value - v)) ∧
    (∀ c v, bestDragCandidate T context objects viewBounds config getParent SnapAxis.y = some c →
      (v, c.dragSnapEdge) ∈ getDragSnapValuesForAxis (getSnapPoints T context.draggedBounds) SnapAxis.y →
      v ≠ 0 →
      (computeSnap T context objects viewBounds config getParent).snappedPosition.y
        = context.draggedBounds.y + (c.target.value - v)) := by
  constructor
  · intro c v hbest hmem hv
    have hfind := find?_dragSnapValue (getSnapPoints T context.draggedBounds) SnapAxis.x hmem
    simp only [computeSnap, henabled, if_true, hbest]
    have : currentDragValueFor (getSnapPoints T context.draggedBounds) SnapAxis.x c.dragSnapEdge = v := by
      rw [currentDragValueFor, hfind]
      simp [jsOrQ, hv]
    rw [this]
  · intro c v hbest hmem hv
    have hfind := find?_dragSnapValue (getSnapPoints T context.draggedBounds) SnapAxis.y hmem
    simp only [computeSnap, henabled, if_true, hbest]
    have : currentDragValueFor (getSnapPoints T context.draggedBounds) SnapAxis.y c.dragSnapEdge = v := by
      rw [currentDragValueFor, hfind]
      simp [jsOrQ, hv]
    rw [this]

/-- The per-axis candidate bucket is empty for a negative threshold. -/
theorem axisCandidates_nil_of_neg_threshold {context : DragSnapContext}
    {config : SnapConfiguration} {getParent : Option (String → Option String)}
    {obm : List (String × Bounds)} {viewBounds : Bounds} {sp : SnapPoints}
    {targets : List SnapTarget} {axis : SnapAxis}
    (hneg : config.snapThreshold < 0) :
    axisCandidates context config getParent obm viewBounds sp targets axis = [] := by
  rw [List.eq_nil_iff_forall_not_mem]
  intro c hc
  rcases mem_axisCandidates.mp hc with ⟨t, _, _, ve, _, hd, _⟩
  exact absurd (le_trans (abs_nonneg _) hd) (not_le.mpr hneg)

/-- Claim C9 (amended): with `enabled = false`, `computeSnap` returns the
unchanged position and empty active-snap and candidate lists; with
`snapThreshold < 0` no candidate is ever scored, so the position is unchanged
and there are no active snaps (at threshold exactly 0 an exactly aligned
target is still accepted — see the counterexample). -/
theorem computeSnap_disabled_or_negative_threshold_no_snapping
    (T : Trig) (context : DragSnapContext) (objects : List SnapSpatialObject)
    (viewBounds : Bounds) (config : SnapConfiguration)
    (getParent : Option (String → Option String)) :
    (config.enabled = false →
      computeSnap T context objects viewBounds config getParent =
        { snappedPosition := ⟨context.draggedBounds.x, context.draggedBounds.y⟩
          activeSnaps := [], candidates := [] }) ∧
    (config.snapThreshold < 0 →
      (computeSnap T context objects viewBounds config getParent).snappedPosition
        = ⟨context.draggedBounds.x, context.draggedBounds.y⟩ ∧
      (computeSnap T context objects viewBounds config getParent).activeSnaps = []) := by
  constructor
  · intro hdis
    simp [computeSnap, hdis]
  · intro hneg
    cases henabled : config.enabled with
    | false =>
      constructor <;> simp [computeSnap, henabled]
    | true =>
      have hbX : bestDragCandidate T context objects viewBounds config getParent SnapAxis.x = none := by
        rw [bestDragCandidate, dragCandidates, axisCandidates_nil_of_neg_threshold hneg]
        rfl
      have hbY : bestDragCandidate T context objects viewBounds config getParent SnapAxis.y = none := by
        rw [bestDragCandidate, dragCandidates, axisCandidates_nil_of_neg_threshold hneg]
        rfl
      constructor <;> simp [computeSnap, henabled, hbX, hbY]

/-- Targets generated by `generateXAxisTargets` are x-axis targets sourced
from the object. -/
theorem generateXAxisTargets_axis_source (object : SnapSpatialObject)
    (sp : SnapPoints) :
    ∀ t ∈ generateXAxisTargets object sp,
      t.axis = SnapAxis.x ∧ t.sourceObjectId = some object.id := by
  intro t ht
  simp only [generateXAxisTargets, List.mem_append, List.mem_cons,
    List.not_mem_nil, or_false] at ht
  rcases ht with (rfl | rfl | rfl) | ht
  · exact ⟨rfl, rfl⟩
  · exact ⟨rfl, rfl⟩
  · exact ⟨rfl, rfl⟩
  · split at ht
    · rcases List.mem_singleton.mp ht with rfl
      exact ⟨rfl, rfl⟩
    · cases ht

/-- Targets generated by `generateYAxisTargets` are y-axis targets sourced
from the object. -/
theorem generateYAxisTargets_axis_source (object : SnapSpatialObject)
    (sp : SnapPoints) :
    ∀ t ∈ generateYAxisTargets object sp,
      t.axis = SnapAxis.y ∧ t.sourceObjectId = some object.id := by
  intro t ht
  simp only [generateYAxisTargets, List.mem_append, List.mem_cons,
    List.not_mem_nil, or_false] at ht
  rcases ht with (rfl | rfl | rfl) | ht
  · exact ⟨rfl, rfl⟩
  · exact ⟨rfl, rfl⟩
  · exact ⟨rfl, rfl⟩
  · split at ht
    · rcases List.mem_singleton.mp ht with rfl
      exact ⟨rfl, rfl⟩
    · cases ht

/-- Page-boundary targets carry no source object. -/
theorem generatePageBoundaryTargets_source_none (viewBounds : Bounds) :
    ∀ t ∈ generatePageBoundaryTargets viewBounds, t.sourceObjectId = none := by
  intro t ht
  simp only [generatePageBoundaryTargets, List.mem_cons, List.not_mem_nil,
    or_false] at ht
  rcases ht with rfl | rfl | rfl | rfl | rfl | rfl <;> rfl

/-- Grid targets carry no source object. -/
theorem generateGridTargets_source_none (viewBounds : Bounds) (gridSize : ℚ) :
    ∀ t ∈ generateGridTargets viewBounds gridSize, t.sourceObjectId = none := by
  intro t ht
  simp only [generateGridTargets, List.mem_append, List.mem_map,
    List.mem_range] at ht
  rcases ht with ⟨i, _, rfl⟩ | ⟨i, _, rfl⟩ <;> rfl

/-- Claim C8 (amended): when the dragged bounds *are* passed to target
generation (`generateAllSnapTargets` with `some draggedBounds`), an object
whose perpendicular extent is neither overlapping nor within
`snapThreshold × 200` of the dragged object's (i.e.
`isGeometricallyRelevant` is false on an axis) contributes no targets on that
axis: every generated target sourced from such an object lies on the other
axis.  (`computeSnap` itself passes *no* dragged bounds, so this filter is
inactive during drags — see the counterexample.) -/
theorem generateAllSnapTargets_relevance_filter
    (T : Trig) (objects : List SnapSpatialObject) (excludeIds : List String)
    (viewBounds : Bounds) (config : SnapConfiguration) (db : RotatedBounds)
    (oid : String) (ax : SnapAxis)
    (hfar : ∀ o ∈ objects, o.id = oid →
      isGeometricallyRelevant T (getAABB T o) db ax
        (config.snapThreshold * DEFAULT_PROXIMITY_MULTIPLIER) = false) :
    ∀ t ∈ generateAllSnapTargets T objects excludeIds viewBounds config (some db),
      t.sourceObjectId = some oid → t.axis ≠ ax := by
  intro t ht hsrc
  simp only [generateAllSnapTargets, List.mem_append] at ht
  rcases ht with (ht | ht) | ht
  · split at ht
    · exact absurd (generatePageBoundaryTargets_source_none viewBounds t ht ▸ hsrc)
        (by simp)
    · cases ht
  · split at ht
    · simp only [generateSnapTargets, List.mem_flatMap] at ht
      rcases ht with ⟨o, ho, hto⟩
      split at hto
      · cases hto
      · split at hto
        · rw [List.mem_append] at hto
          rcases hto with hto | hto
          · split at hto
            · rename_i hrel
              have hax := (generateXAxisTargets_axis_source o _ t hto).1
              have hid := (generateXAxisTargets_axis_source o _ t hto).2
              have hoid : o.id = oid := by
                rw [hid] at hsrc
                exact Option.some.inj hsrc
              cases ax with
              | x => rw [hfar o ho hoid] at hrel; simp at hrel
              | y => simp [hax]
            · cases hto
          · split at hto
            · rename_i hrel
              have hax := (generateYAxisTargets_axis_source o _ t hto).1
              have hid := (generateYAxisTargets_axis_source o _ t hto).2
              have hoid : o.id = oid := by
                rw [hid] at hsrc
                exact Option.some.inj hsrc
              cases ax with
              | x => simp [hax]
              | y => rw [hfar o ho hoid] at hrel; simp at hrel
            · cases hto
        · cases hto
    · cases ht
  · split at ht
    · exact absurd (generateGridTargets_source_none viewBounds config.gridSize t ht ▸ hsrc)
        (by simp)
    · cases ht


/-- The target list of the C6 scenario, fully evaluated. -/
theorem c6_targets_eval :
    dragTargets trigZero ctx6 objs6 vb6 cfg6 =
      [ ⟨.edge, .x, -1000, none, some .left, 12⟩,
        ⟨.edge, .x, -600, none, some .right, 12⟩,
        ⟨.edge, .y, -1000, none, some .top, 12⟩,
        ⟨.edge, .y, -600, none, some .bottom, 12⟩,
        ⟨.center, .x, -800, none, some .centerX, 10⟩,
        ⟨.center, .y, -800, none, some .centerY, 10⟩,
        ⟨.edge, .x, 100, some "b", some .left, 10⟩,
        ⟨.edge, .x, 600, some "b", some .right, 10⟩,
        ⟨.center, .x, 350, some "b", some .centerX, 8⟩,
        ⟨.edge, .y, 1000, some "b", some .top, 10⟩,
        ⟨.edge, .y, 1080, some "b", some .bottom, 10⟩,
        ⟨.center, .y, 1040, some "b", some .centerY, 8⟩ ] := by
  norm_num [dragTargets, generateAllSnapTargets, generateSnapTargets,
    generatePageBoundaryTargets, generateXAxisTargets, generateYAxisTargets,
    objectRotatedBounds, getSnapPoints, getRotatedBoundsCenter, getAABB,
    basePriorityEdge, basePriorityCenter, cfg6, ctx6, objs6, vb6,
    String.reduceEq]
  exact fun h => absurd h (by simp)

/-- The x-axis candidate bucket of the C6 scenario: exactly one candidate. -/
theorem c6_candidates_x :
    dragCandidates trigZero ctx6 objs6 vb6 cfg6 none SnapAxis.x = [c6cand] := by
  simp only [dragCandidates, c6_targets_eval]
  norm_num [axisCandidates, getDragSnapValuesForAxis, getSnapPoints,
    getRotatedBoundsCenter, c6cand, c6target, ctx6, cfg6, objs6, vb6,
    dragObjectBoundsMap, getAABB, List.filterMap_cons, List.filterMap_nil]

/-- The y-axis candidate bucket of the C6 scenario is empty. -/
theorem c6_candidates_y :
    dragCandidates trigZero ctx6 objs6 vb6 cfg6 none SnapAxis.y = [] := by
  simp only [dragCandidates, c6_targets_eval]
  norm_num [axisCandidates, getDragSnapValuesForAxis, getSnapPoints,
    getRotatedBoundsCenter, ctx6, cfg6, List.filterMap_cons, List.filterMap_nil]
  decide

/-- Claim C6: in the concrete scenario — dragged bounds {97, 50, 100, 80},
grab point (0.5, 0.5), one other object with left edge at x = 100, snap
threshold 8 — `computeSnap` returns snapped position (100, 50) and exactly
one active snap, on the x axis, at distance 3. -/
theorem computeSnap_concrete_drag_scenario :
    (computeSnap trigZero ctx6 objs6 vb6 cfg6 none).snappedPosition = ⟨100, 50⟩ ∧
    ((computeSnap trigZero ctx6 objs6 vb6 cfg6 none).activeSnaps.map
      fun s => (s.target.axis, s.distance)) = [(SnapAxis.x, 3)] := by
  have hen : cfg6.enabled = true := rfl
  have hbx : bestDragCandidate trigZero ctx6 objs6 vb6 cfg6 none SnapAxis.x
      = some c6cand := by
    simp only [bestDragCandidate, c6_candidates_x]
    rfl
  have hby : bestDragCandidate trigZero ctx6 objs6 vb6 cfg6 none SnapAxis.y
      = none := by
    simp only [bestDragCandidate, c6_candidates_y]
    rfl
  constructor
  · simp only [computeSnap, hen, if_true, hbx, hby]
    norm_num [c6cand, c6target, scoredCandidateFor, currentDragValueFor,
      getDragSnapValuesForAxis, getSnapPoints, getRotatedBoundsCenter, ctx6,
      jsOrQ, List.find?]
  · simp only [computeSnap, hen, if_true, hbx, hby]
    norm_num [c6cand, c6target, scoredCandidateFor, activeSnapFor]

/-- The target list of the C4 counterexample scenario, fully evaluated. -/
theorem c4_targets_eval :
    dragTargets trigZero ctx4 objs4 vb4 cfg6 =
      [ ⟨.edge, .x, 1000, none, some .left, 12⟩,
        ⟨.edge, .x, 1400, none, some .right, 12⟩,
        ⟨.edge, .y, 1000, none, some .top, 12⟩,
        ⟨.edge, .y, 1400, none, some .bottom, 12⟩,
        ⟨.center, .x, 1200, none, some .centerX, 10⟩,
        ⟨.center, .y, 1200, none, some .centerY, 10⟩,
        ⟨.edge, .x, -300, some "b", some .left, 10⟩,
        ⟨.edge, .x, 300, some "b", some .right, 10⟩,
        ⟨.center, .x, 0, some "b", some .centerX, 8⟩,
        ⟨.edge, .y, 300, some "b", some .top, 10⟩,
        ⟨.edge, .y, 380, some "b", some .bottom, 10⟩,
        ⟨.center, .y, 340, some "b", some .centerY, 8⟩ ] := by
  norm_num [dragTargets, generateAllSnapTargets, generateSnapTargets,
    generatePageBoundaryTargets, generateXAxisTargets, generateYAxisTargets,
    objectRotatedBounds, getSnapPoints, getRotatedBoundsCenter, getAABB,
    basePriorityEdge, basePriorityCenter, cfg6, ctx4, objs4, vb4,
    String.reduceEq]
  exact fun h => absurd h (by simp)

/-- The x-axis candidate bucket of the C4 counterexample: one candidate, the
other object's center at x = 0, matched by the dragged center (value 0). -/
theorem c4_candidates_x :
    dragCandidates trigZero ctx4 objs4 vb4 cfg6 none SnapAxis.x = [c4cand] := by
  simp only [dragCandidates, c4_targets_eval]
  norm_num [axisCandidates, getDragSnapValuesForAxis, getSnapPoints,
    getRotatedBoundsCenter, c4cand, c4target, ctx4, cfg6, objs4, vb4,
    dragObjectBoundsMap, getAABB, List.filterMap_cons, List.filterMap_nil]

/-- The y-axis candidate bucket of the C4 counterexample is empty. -/
theorem c4_candidates_y :
    dragCandidates trigZero ctx4 objs4 vb4 cfg6 none SnapAxis.y = [] := by
  simp only [dragCandidates, c4_targets_eval]
  norm_num [axisCandidates, getDragSnapValuesForAxis, getSnapPoints,
    getRotatedBoundsCenter, ctx4, cfg6, List.filterMap_cons, List.filterMap_nil]
  decide

/-- Claim C4 counterexample: the winning x candidate's drag value is the
dragged center at exactly 0, which is falsy in the `|| snapPoints.left`
fallback, so the code snaps to x = 0 instead of the exact-offset value −50. -/
theorem computeSnap_snapped_offset_falsy_zero :
    bestDragCandidate trigZero ctx4 objs4 vb4 cfg6 none SnapAxis.x = some c4cand ∧
    c4cand.target.value = 0 ∧
    c4cand.dragSnapEdge = SnapEdge.centerX ∧
    ((0 : ℚ), SnapEdge.centerX) ∈
      getDragSnapValuesForAxis (getSnapPoints trigZero ctx4.draggedBounds) SnapAxis.x ∧
    (computeSnap trigZero ctx4 objs4 vb4 cfg6 none).snappedPosition.x = 0 ∧
    ctx4.draggedBounds.x + (c4cand.target.value - 0) = -50 ∧
    (0 : ℚ) ≠ -50 := by
  have hen : cfg6.enabled = true := rfl
  have hbx : bestDragCandidate trigZero ctx4 objs4 vb4 cfg6 none SnapAxis.x
      = some c4cand := by
    simp only [bestDragCandidate, c4_candidates_x]
    rfl
  have hby : bestDragCandidate trigZero ctx4 objs4 vb4 cfg6 none SnapAxis.y
      = none := by
    simp only [bestDragCandidate, c4_candidates_y]
    rfl
  have hmem0 : ((0 : ℚ), SnapEdge.centerX) ∈
      getDragSnapValuesForAxis (getSnapPoints trigZero ctx4.draggedBounds)
        SnapAxis.x := by
    norm_num [getDragSnapValuesForAxis, getSnapPoints, getRotatedBoundsCenter, ctx4]
  refine ⟨hbx, rfl, rfl, hmem0, ?_,
    by norm_num [ctx4, c4cand, c4target, scoredCandidateFor], by norm_num⟩
  simp only [computeSnap, hen, if_true, hbx, hby]
  have hedge : c4cand.dragSnapEdge = SnapEdge.centerX := rfl
  have hval : c4cand.target.value = 0 := rfl
  simp only [currentDragValueFor, hedge, hval]
  rw [find?_dragSnapValue (getSnapPoints trigZero ctx4.draggedBounds) SnapAxis.x hmem0]
  simp only [jsOrQ]
  norm_num [getSnapPoints, getRotatedBoundsCenter, ctx4]

/-- The target list of the C4/C5 witness scenario, fully evaluated. -/
theorem cW_targets_eval :
    dragTargets trigZero ctxW objsW vbW cfg6 =
      [ ⟨.edge, .x, 2000, none, some .left, 12⟩,
        ⟨.edge, .x, 2100, none, some .right, 12⟩,
        ⟨.edge, .y, 2000, none, some .top, 12⟩,
        ⟨.edge, .y, 2100, none, some .bottom, 12⟩,
        ⟨.center, .x, 2050, none, some .centerX, 10⟩,
        ⟨.center, .y, 2050, none, some .centerY, 10⟩,
        ⟨.edge, .x, 13, some "b", some .left, 10⟩,
        ⟨.edge, .x, 1013, some "b", some .right, 10⟩,
        ⟨.center, .x, 513, some "b", some .centerX, 8⟩,
        ⟨.edge, .y, 500, some "b", some .top, 10⟩,
        ⟨.edge, .y, 540, some "b", some .bottom, 10⟩,
        ⟨.center, .y, 520, some "b", some .centerY, 8⟩ ] := by
  norm_num [dragTargets, generateAllSnapTargets, generateSnapTargets,
    generatePageBoundaryTargets, generateXAxisTargets, generateYAxisTargets,
    objectRotatedBounds, getSnapPoints, getRotatedBoundsCenter, getAABB,
    basePriorityEdge, basePriorityCenter, cfg6, ctxW, objsW, vbW,
    String.reduceEq]
  exact fun h => absurd h (by simp)

/-- The x-axis candidate bucket of the witness scenario: one candidate, the
other object's left edge at x = 13, matched by the dragged left edge
(value 10). -/
theorem cW_candidates_x :
    dragCandidates trigZero ctxW objsW vbW cfg6 none SnapAxis.x = [cWcand] := by
  simp only [dragCandidates, cW_targets_eval]
  norm_num [axisCandidates, getDragSnapValuesForAxis, getSnapPoints,
    getRotatedBoundsCenter, cWcand, cWtarget, ctxW, cfg6, objsW, vbW,
    dragObjectBoundsMap, getAABB, List.filterMap_cons, List.filterMap_nil]

/-- The y-axis candidate bucket of the witness scenario is empty. -/
theorem cW_candidates_y :
    dragCandidates trigZero ctxW objsW vbW cfg6 none SnapAxis.y = [] := by
  simp only [dragCandidates, cW_targets_eval]
  norm_num [axisCandidates, getDragSnapValuesForAxis, getSnapPoints,
    getRotatedBoundsCenter, ctxW, cfg6, List.filterMap_cons, List.filterMap_nil]
  decide

/-- Witness for `computeSnap_snapped_offset_exact`: a concrete drag whose
winning candidate has the nonzero drag value 10, so the snapped x is the
exact offset. -/
theorem computeSnap_snapped_offset_exact_witness :
    (computeSnap trigZero ctxW objsW vbW cfg6 none).snappedPosition.x
      = ctxW.draggedBounds.x + (cWcand.target.value - 10) := by
  have hbx : bestDragCandidate trigZero ctxW objsW vbW cfg6 none SnapAxis.x
      = some cWcand := by
    simp only [bestDragCandidate, cW_candidates_x]
    rfl
  refine (computeSnap_snapped_offset_exact trigZero ctxW objsW vbW cfg6 none rfl).1
    cWcand 10 hbx ?_ (by norm_num)
  norm_num [cWcand, cWtarget, scoredCandidateFor, getDragSnapValuesForAxis,
    getSnapPoints, getRotatedBoundsCenter, ctxW]

/-- Witness for `computeSnap_candidate_iff_within_threshold`: the concrete
pair (dragged left edge 10, target at 13) is scored as a candidate, hence its
distance is within the threshold. -/
theorem computeSnap_candidate_iff_within_threshold_witness :
    |(10 : ℚ) - cWtarget.value| ≤ cfg6.snapThreshold := by
  have hen : cfg6.enabled = true := rfl
  have hc : (computeSnap trigZero ctxW objsW vbW cfg6 none).candidates = [cWcand] := by
    simp [computeSnap, hen, cW_candidates_x, cW_candidates_y, sortByScoreDesc,
      insertByScore]
  have hmem : cWtarget ∈ dragTargets trigZero ctxW objsW vbW cfg6 := by
    rw [cW_targets_eval]
    simp [cWtarget]
  have hve : ((10 : ℚ), SnapEdge.left) ∈
      getDragSnapValuesForAxis (getSnapPoints trigZero ctxW.draggedBounds)
        cWtarget.axis := by
    norm_num [cWtarget, getDragSnapValuesForAxis, getSnapPoints,
      getRotatedBoundsCenter, ctxW]
  exact (computeSnap_candidate_iff_within_threshold trigZero ctxW objsW vbW cfg6
    none rfl cWtarget hmem 10 SnapEdge.left hve).mp
    ⟨cWcand, by rw [hc]; exact List.mem_singleton_self _, rfl, rfl⟩

/-- The target list of the C9 counterexample scenario, fully evaluated. -/
theorem c9_targets_eval :
    dragTargets trigZero ctx9 objs9 vb9 cfg9 =
      [ ⟨.edge, .x, 2000, none, some .left, 12⟩,
        ⟨.edge, .x, 2100, none, some .right, 12⟩,
        ⟨.edge, .y, 2000, none, some .top, 12⟩,
        ⟨.edge, .y, 2100, none, some .bottom, 12⟩,
        ⟨.center, .x, 2050, none, some .centerX, 10⟩,
        ⟨.center, .y, 2050, none, some .centerY, 10⟩,
        ⟨.edge, .x, 10, some "b", some .left, 10⟩,
        ⟨.edge, .x, 87, some "b", some .right, 10⟩,
        ⟨.center, .x, 97/2, some "b", some .centerX, 8⟩,
        ⟨.edge, .y, 500, some "b", some .top, 10⟩,
        ⟨.edge, .y, 530, some "b", some .bottom, 10⟩,
        ⟨.center, .y, 515, some "b", some .centerY, 8⟩ ] := by
  norm_num [dragTargets, generateAllSnapTargets, generateSnapTargets,
    generatePageBoundaryTargets, generateXAxisTargets, generateYAxisTargets,
    objectRotatedBounds, getSnapPoints, getRotatedBoundsCenter, getAABB,
    basePriorityEdge, basePriorityCenter, cfg9, ctx9, objs9, vb9,
    String.reduceEq]
  exact fun h => absurd h (by simp)

/-- The x-axis candidate bucket of the C9 counterexample at threshold 0: the
exactly aligned left edge (distance 0) is still accepted. -/
theorem c9_candidates_x :
    dragCandidates trigZero ctx9 objs9 vb9 cfg9 none SnapAxis.x
      = [scoredCandidateFor ctx9 cfg9 none (dragObjectBoundsMap trigZero objs9)
          vb9 (getSnapPoints trigZero ctx9.draggedBounds)
          ⟨.edge, .x, 10, some "b", some .left, 10⟩ 10 SnapEdge.left] := by
  simp only [dragCandidates, c9_targets_eval]
  norm_num [axisCandidates, getDragSnapValuesForAxis, getSnapPoints,
    getRotatedBoundsCenter, ctx9, cfg9, objs9, vb9,
    dragObjectBoundsMap, getAABB, List.filterMap_cons, List.filterMap_nil]

/-- The y-axis candidate bucket of the C9 counterexample is empty. -/
theorem c9_candidates_y :
    dragCandidates trigZero ctx9 objs9 vb9 cfg9 none SnapAxis.y = [] := by
  simp only [dragCandidates, c9_targets_eval]
  norm_num [axisCandidates, getDragSnapValuesForAxis, getSnapPoints,
    getRotatedBoundsCenter, ctx9, cfg9, List.filterMap_cons, List.filterMap_nil]
  decide

/-- Claim C9 counterexample: with `snapThreshold = 0` an exactly aligned
object target is still scored and wins, so the result carries one active
snap — "threshold ≤ 0 produces no snapping" fails at threshold 0. -/
theorem computeSnap_zero_threshold_still_snaps :
    cfg9.snapThreshold = 0 ∧
    (computeSnap trigZero ctx9 objs9 vb9 cfg9 none).activeSnaps.length = 1 := by
  refine ⟨rfl, ?_⟩
  have hen : cfg9.enabled = true := rfl
  have hbx : bestDragCandidate trigZero ctx9 objs9 vb9 cfg9 none SnapAxis.x
      = some (scoredCandidateFor ctx9 cfg9 none (dragObjectBoundsMap trigZero objs9)
          vb9 (getSnapPoints trigZero ctx9.draggedBounds)
          ⟨.edge, .x, 10, some "b", some .left, 10⟩ 10 SnapEdge.left) := by
    simp only [bestDragCandidate, c9_candidates_x]
    rfl
  have hby : bestDragCandidate trigZero ctx9 objs9 vb9 cfg9 none SnapAxis.y
      = none := by
    simp only [bestDragCandidate, c9_candidates_y]
    rfl
  simp [computeSnap, hen, hbx, hby]

/-- Witness for the amended C9 theorem: a disabled configuration returns the
position unchanged with empty lists, and a negative-threshold configuration
returns the position unchanged with no active snaps. -/
theorem computeSnap_disabled_or_negative_threshold_no_snapping_witness :
    computeSnap trigZero ctx6 objs6 vb6 cfgDisabled none =
      { snappedPosition := ⟨ctx6.draggedBounds.x, ctx6.draggedBounds.y⟩,
        activeSnaps := [], candidates := [] } ∧
    (computeSnap trigZero ctx6 objs6 vb6 cfgNegThreshold none).snappedPosition
      = ⟨ctx6.draggedBounds.x, ctx6.draggedBounds.y⟩ ∧
    (computeSnap trigZero ctx6 objs6 vb6 cfgNegThreshold none).activeSnaps = [] :=
  ⟨(computeSnap_disabled_or_negative_threshold_no_snapping trigZero ctx6 objs6 vb6
      cfgDisabled none).1 rfl,
   ((computeSnap_disabled_or_negative_threshold_no_snapping trigZero ctx6 objs6 vb6
      cfgNegThreshold none).2 (by norm_num [cfgNegThreshold])).1,
   ((computeSnap_disabled_or_negative_threshold_no_snapping trigZero ctx6 objs6 vb6
      cfgNegThreshold none).2 (by norm_num [cfgNegThreshold])).2⟩

/-- The target list of the C8 counterexample scenario, fully evaluated: the
far object still contributes all six of its targets. -/
theorem c8_targets_eval :
    dragTargets trigZero ctx8 objs8 vb8 cfg6 =
      [ ⟨.edge, .x, -1000, none, some .left, 12⟩,
        ⟨.edge, .x, -600, none, some .right, 12⟩,
        ⟨.edge, .y, -1000, none, some .top, 12⟩,
        ⟨.edge, .y, -600, none, some .bottom, 12⟩,
        ⟨.center, .x, -800, none, some .centerX, 10⟩,
        ⟨.center, .y, -800, none, some .centerY, 10⟩,
        ⟨.edge, .x, 100, some "far", some .left, 10⟩,
        ⟨.edge, .x, 600, some "far", some .right, 10⟩,
        ⟨.center, .x, 350, some "far", some .centerX, 8⟩,
        ⟨.edge, .y, 100000, some "far", some .top, 10⟩,
        ⟨.edge, .y, 100050, some "far", some .bottom, 10⟩,
        ⟨.center, .y, 100025, some "far", some .centerY, 8⟩ ] := by
  norm_num [dragTargets, generateAllSnapTargets, generateSnapTargets,
    generatePageBoundaryTargets, generateXAxisTargets, generateYAxisTargets,
    objectRotatedBounds, getSnapPoints, getRotatedBoundsCenter, getAABB,
    basePriorityEdge, basePriorityCenter, cfg6, ctx8, objs8, vb8, farObj,
    String.reduceEq]
  exact fun h => absurd h (by simp)

/-- The x-axis candidate bucket of the C8 counterexample: one candidate,
sourced from the far object. -/
theorem c8_candidates_x :
    dragCandidates trigZero ctx8 objs8 vb8 cfg6 none SnapAxis.x
      = [scoredCandidateFor ctx8 cfg6 none (dragObjectBoundsMap trigZero objs8)
          vb8 (getSnapPoints trigZero ctx8.draggedBounds)
          ⟨.edge, .x, 100, some "far", some .left, 10⟩ 97 SnapEdge.left] := by
  simp only [dragCandidates, c8_targets_eval]
  norm_num [axisCandidates, getDragSnapValuesForAxis, getSnapPoints,
    getRotatedBoundsCenter, ctx8, cfg6, objs8, vb8, farObj,
    dragObjectBoundsMap, getAABB, List.filterMap_cons, List.filterMap_nil]

/-- The y-axis candidate bucket of the C8 counterexample is empty. -/
theorem c8_candidates_y :
    dragCandidates trigZero ctx8 objs8 vb8 cfg6 none SnapAxis.y = [] := by
  simp only [dragCandidates, c8_targets_eval]
  norm_num [axisCandidates, getDragSnapValuesForAxis, getSnapPoints,
    getRotatedBoundsCenter, ctx8, cfg6, List.filterMap_cons, List.filterMap_nil]
  decide

/-- Claim C8 counterexample: the far object fails the geometric relevance
test on the x axis, yet the drag computation scores an x-axis candidate
sourced from it (the drag path never passes the dragged bounds to target
generation). -/
theorem computeSnap_far_object_still_contributes :
    isGeometricallyRelevant trigZero (getAABB trigZero farObj) ctx8.draggedBounds
      SnapAxis.x (cfg6.snapThreshold * DEFAULT_PROXIMITY_MULTIPLIER) = false ∧
    ((computeSnap trigZero ctx8 objs8 vb8 cfg6 none).candidates.map
      fun c => (c.target.sourceObjectId, c.target.axis))
      = [(some "far", SnapAxis.x)] := by
  constructor
  · norm_num [isGeometricallyRelevant, getAABB, farObj, ctx8, getSnapPoints,
      getRotatedBoundsCenter, cfg6, DEFAULT_PROXIMITY_MULTIPLIER]
  · have hen : cfg6.enabled = true := rfl
    have hc : (computeSnap trigZero ctx8 objs8 vb8 cfg6 none).candidates
        = [scoredCandidateFor ctx8 cfg6 none (dragObjectBoundsMap trigZero objs8)
            vb8 (getSnapPoints trigZero ctx8.draggedBounds)
            ⟨.edge, .x, 100, some "far", some .left, 10⟩ 97 SnapEdge.left] := by
      simp [computeSnap, hen, c8_candidates_x, c8_candidates_y, sortByScoreDesc,
        insertByScore]
    rw [hc]
    norm_num [scoredCandidateFor]

/-- Witness for the amended C8 theorem: with the dragged bounds passed to
target generation, the far object contributes zero x-axis targets. -/
theorem generateAllSnapTargets_relevance_filter_witness :
    ((generateAllSnapTargets trigZero [farObj] [] vb8 cfg6
        (some ctx8.draggedBounds)).filter
      fun t => decide (t.sourceObjectId = some "far")
        && decide (t.axis = SnapAxis.x)).length = 0 := by
  have hfar : ∀ o ∈ [farObj], o.id = "far" →
      isGeometricallyRelevant trigZero (getAABB trigZero o) ctx8.draggedBounds
        SnapAxis.x (cfg6.snapThreshold * DEFAULT_PROXIMITY_MULTIPLIER) = false := by
    intro o ho _
    rw [List.mem_singleton] at ho
    subst ho
    norm_num [isGeometricallyRelevant, getAABB, farObj, ctx8, getSnapPoints,
      getRotatedBoundsCenter, cfg6, DEFAULT_PROXIMITY_MULTIPLIER]
  have hmain := generateAllSnapTargets_relevance_filter trigZero [farObj] []
    vb8 cfg6 ctx8.draggedBounds "far" SnapAxis.x hfar
  rw [List.length_eq_zero, List.filter_eq_nil_iff]
  intro t ht
  simp only [Bool.and_eq_true, decide_eq_true_eq, not_and]
  intro hsrc hax
  exact hmain t ht hsrc hax

/-- The C7 dragged object, converted to a bounds record. -/
theorem c7_dragged_eval :
    draggedToBounds trigZero dragged7 "d" =
      ⟨"d", ⟨447, 0, 50, 50⟩, 472, 25, 447, 497, 0, 50⟩ := by
  norm_num [draggedToBounds, getSnapPoints, getRotatedBoundsCenter, dragged7]

/-- The C7 other objects, converted to bounds records. -/
theorem c7_others_eval :
    ((objs7.filter fun o => if o.id ∈ ["d"] then false else true).map
      (toObjectWithBounds trigZero)) =
      [ ⟨"A", ⟨0, 0, 50, 50⟩, 25, 25, 0, 50, 0, 50⟩,
        ⟨"B", ⟨150, 0, 50, 50⟩, 175, 25, 150, 200, 0, 50⟩,
        ⟨"C", ⟨300, 0, 50, 50⟩, 325, 25, 300, 350, 0, 50⟩ ] := by
  norm_num [objs7, toObjectWithBounds, getAABB, List.filter,
    (by simp : (("A" : String) = "d") = False),
    (by simp : (("B" : String) = "d") = False),
    (by simp : (("C" : String) = "d") = False)]

/-- The row detector on the C7 scenario: the gap-matching branch proposes
x = 450 (spacing 100, distance 3) with exactly two gap indicators. -/
theorem c7_row_eval :
    detectRowDistribution ⟨"d", ⟨447, 0, 50, 50⟩, 472, 25, 447, 497, 0, 50⟩
      [ ⟨"A", ⟨0, 0, 50, 50⟩, 25, 25, 0, 50, 0, 50⟩,
        ⟨"B", ⟨150, 0, 50, 50⟩, 175, 25, 150, 200, 0, 50⟩,
        ⟨"C", ⟨300, 0, 50, 50⟩, 325, 25, 300, 350, 0, 50⟩ ] 8 2
      = some ⟨⟨450, 0⟩,
          ⟨.row, ["C", "d", "A", "B"], 100,
            [ ⟨⟨350, 25⟩, ⟨450, 25⟩, 100, .x⟩,
              ⟨⟨50, 25⟩, ⟨150, 25⟩, 100, .x⟩ ]⟩,
          3, 3/4⟩ := by
  norm_num [detectRowDistribution, rangesOverlap, sortByCenterX, insertByCenterX,
    gapX, calculateDistributionScore, List.findSome?, List.filter,
    (show List.range 2 = [0, 1] from rfl), List.getD, GAP_TOLERANCE,
    createRowGaps,
    (by simp : (("A" : String) = "d") = False),
    (by simp : (("B" : String) = "d") = False),
    (by simp : (("C" : String) = "d") = False),
    (by simp : (("d" : String) = "d") = True),
    (by simp : (("A" : String) = "C") = False),
    (by simp : (("A" : String) = "B") = False),
    (by simp : (("B" : String) = "C") = False),
    (by simp : (("A" : String) = "d") = False)]

/-- The column detector on the C7 scenario finds no candidate. -/
theorem c7_col_eval :
    detectColumnDistribution ⟨"d", ⟨447, 0, 50, 50⟩, 472, 25, 447, 497, 0, 50⟩
      [ ⟨"A", ⟨0, 0, 50, 50⟩, 25, 25, 0, 50, 0, 50⟩,
        ⟨"B", ⟨150, 0, 50, 50⟩, 175, 25, 150, 200, 0, 50⟩,
        ⟨"C", ⟨300, 0, 50, 50⟩, 325, 25, 300, 350, 0, 50⟩ ] 8 2 = none := by
  norm_num [detectColumnDistribution, rangesOverlap, List.filter]

/-- The staircase detector on the C7 scenario finds no candidate, for every
square-root oracle (the vertical deltas are all 0). -/
theorem c7_stair_eval (S : Sqrt) :
    detectStaircaseDistribution S ⟨"d", ⟨447, 0, 50, 50⟩, 472, 25, 447, 497, 0, 50⟩
      [ ⟨"A", ⟨0, 0, 50, 50⟩, 25, 25, 0, 50, 0, 50⟩,
        ⟨"B", ⟨150, 0, 50, 50⟩, 175, 25, 150, 200, 0, 50⟩,
        ⟨"C", ⟨300, 0, 50, 50⟩, 325, 25, 300, 350, 0, 50⟩ ] 8 2 = none := by
  norm_num [detectStaircaseDistribution, sortByCenterX, insertByCenterX, average]

/-- Claim C7 (amended): in the row scenario — objects of width 50 at x = 0,
150, 300 and a fourth 50-wide object dragged to x = 447 — the distribution
detector proposes exactly one candidate: a row insertion at exactly x = 450
with spacing 100 and distance 3, but carrying 2 gap segments (the dragged
object's new gap and the matched existing gap), not 3. -/
theorem detectDistribution_row_scenario (S : Sqrt) :
    (detectDistribution trigZero S dragged7 "d" objs7 ["d"] cfg7).map
      (fun c => (c.position, c.info.pattern, c.info.spacing, c.info.gaps.length,
        c.distance))
      = [(⟨450, 0⟩, DistributionPattern.row, 100, 2, 3)] := by
  have hsd : cfg7.snapToDistribution = true := rfl
  have hth : cfg7.snapThreshold = 8 := rfl
  simp only [detectDistribution, hsd, if_true, hth, c7_dragged_eval, c7_others_eval,
    c7_row_eval, c7_col_eval, c7_stair_eval S]
  norm_num [sortDistByScoreDesc, insertDistByScore]

/-- Claim C7 counterexample: the proposed row candidate reports 2 gap
segments, not the 3 the specification expects. -/
theorem detectDistribution_row_scenario_gap_count :
    ((detectDistribution trigZero sqrtZero dragged7 "d" objs7 ["d"] cfg7).map
      fun c => c.info.gaps.length) = [2] ∧
    ¬ ((detectDistribution trigZero sqrtZero dragged7 "d" objs7 ["d"] cfg7).map
      fun c => c.info.gaps.length) = [3] := by
  have hsd : cfg7.snapToDistribution = true := rfl
  have hth : cfg7.snapThreshold = 8 := rfl
  constructor
  · simp only [detectDistribution, hsd, if_true, hth, c7_dragged_eval,
      c7_others_eval, c7_row_eval, c7_col_eval, c7_stair_eval sqrtZero]
    norm_num [sortDistByScoreDesc, insertDistByScore]
  · simp only [detectDistribution, hsd, if_true, hth, c7_dragged_eval,
      c7_others_eval, c7_row_eval, c7_col_eval, c7_stair_eval sqrtZero]
    norm_num [sortDistByScoreDesc, insertDistByScore]

end SvgCanvas
